import Mathlib

/-!
Verification of the GLFM Android platform layer (src/glfm_platform_android.c).

The C file is a callback-driven lifecycle / rendering-surface controller.  We
shallowly embed its state (`GLFMPlatformData`) as a Lean structure `PD`, its
callback table presence flags as `CB`, and each C function as a Lean function
from state (plus an environment record holding the results of external
EGL/JNI/Android calls made by that function) to state paired with the list of
embedder-callback invocations (`Ev`) it performs, in order.

Modelling conventions, noted once here:
* Pointers to external handles (`EGLDisplay`, `EGLSurface`, `EGLContext`) are
  modelled by booleans recording whether the handle differs from the
  corresponding `EGL_NO_*` constant; that is the only way the C code inspects
  them.
* `platformData->display` is allocated in `android_main` before any handler can
  run, so it is modelled as always non-NULL; presence of an individual callback
  (`display->renderFunc` etc.) is a boolean in `CB`.
* Results of external calls (eglCreateContext success, eglMakeCurrent success,
  eglChooseConfig success, eglQuerySurface sizes, JNI call results, sensor
  availability and return codes) are inputs, supplied in small `*Env` records.
  `eglMakeCurrent` with `EGL_NO_CONTEXT` and real surfaces always fails, so its
  modelled success is `eglContext && env.makeCurrentOK`.
* C `int32_t` / `int` values that the code compares or does arithmetic on are
  `Int`; the C `uint32_t` unicode value is `Nat`; the `(char)` casts in the
  UTF-8 encoder are `% 256`.  Touch/pointer coordinates are pass-through data
  (the C converts `float` to `double` and hands them on without inspecting
  them); they are carried as `Int` placeholders.
* `lastSwapTime` and the sleep computation of the pacing loop act only on a
  `double` clock and do not influence which callbacks fire, so they are not
  part of the state; `swapCalled` (a `bool` the loop does branch on) is kept.
* `ASensorEventQueue_setEventRate`, logging, and the JNI-only helpers
  (`_glfmSetFullScreen`, `_glfmResetContentRect`, fullscreen flags) mutate no
  modelled state and invoke no embedder callback, so they contribute nothing.
-/

namespace GLFM

/-- MAX_SIMULTANEOUS_TOUCHES from the C source. -/
def MAX_SIMULTANEOUS_TOUCHES : Int := 5

/-- RESIZE_EVENT_MAX_WAIT_FRAMES from the C source. -/
def RESIZE_EVENT_MAX_WAIT_FRAMES : Int := 5

/-- Android ARect: left/top/right/bottom, as in android/rect.h. -/
structure ARect where
  left : Int
  top : Int
  right : Int
  bottom : Int
  deriving DecidableEq, Repr

/-- GLFMTouchPhase values used by the touch path. -/
inductive Phase where
  | began
  | moved
  | ended
  | cancelled
  deriving DecidableEq, Repr

/-- Android key event actions (AKEY_EVENT_ACTION_DOWN / _UP / _MULTIPLE). -/
inductive KeyAction where
  | down
  | up
  | multiple
  deriving DecidableEq, Repr

/-- One embedder-callback invocation, with the arguments the C code passes. -/
inductive Ev where
  | surfaceCreated (w h : Int)
  | surfaceDestroyed
  | render
  | refresh
  | resize (w h : Int)
  | focus (b : Bool)
  | lowMemory
  | orientationChanged (o : Int)
  | keyboardVisibilityChanged (visible : Bool) (x y w h : Int)
  | touch (touchNumber : Int) (phase : Phase) (x y : Int)
  | char (bytes : List Nat)
  | sensorEnable (i : Fin 4)
  | sensorDisable (i : Fin 4)
  deriving DecidableEq, Repr

/-- Which callbacks the embedder has registered (NULL-ness of the function
pointers in `GLFMDisplay`). -/
structure CB where
  surfaceCreatedF : Bool
  surfaceDestroyedF : Bool
  renderF : Bool
  refreshF : Bool
  resizeF : Bool
  focusF : Bool
  lowMemoryF : Bool
  orientationChangedF : Bool
  keyboardVisibilityChangedF : Bool
  touchF : Bool
  charF : Bool
  sensorF : Fin 4 → Bool

/-- A callback table with every callback registered. -/
def cbAll : CB :=
  { surfaceCreatedF := true, surfaceDestroyedF := true, renderF := true,
    refreshF := true, resizeF := true, focusF := true, lowMemoryF := true,
    orientationChangedF := true, keyboardVisibilityChangedF := true,
    touchF := true, charF := true, sensorF := fun _ => true }

/-! ## UTF-8 encoding (`_glfmUnicodeToUTF8`, lines 986-1010) -/

/-- `_glfmUnicodeToUTF8`: the bytes (before the NUL terminator) that the C
function stores into its buffer, unsigned-char values.  The `% 256` is the
`(char)` cast. -/
def glfmUnicodeToUTF8 (u : Nat) : List Nat :=
  if u < 0x80 then
    [(u &&& 0x7f) % 256]
  else if u < 0x800 then
    [(0xc0 ||| (u >>> 6)) % 256,
     (0x80 ||| (u &&& 0x3f)) % 256]
  else if u < 0x10000 then
    [(0xe0 ||| (u >>> 12)) % 256,
     (0x80 ||| ((u >>> 6) &&& 0x3f)) % 256,
     (0x80 ||| (u &&& 0x3f)) % 256]
  else if u < 0x110000 then
    [(0xf0 ||| (u >>> 18)) % 256,
     (0x80 ||| ((u >>> 12) &&& 0x3f)) % 256,
     (0x80 ||| ((u >>> 6) &&& 0x3f)) % 256,
     (0x80 ||| (u &&& 0x3f)) % 256]
  else []

/-- Reference encoder, following the spec's words: the standard UTF-8
encoding, 1-4 bytes, with standard continuation bytes.  Used only to compare
`glfmUnicodeToUTF8` against. -/
def utf8EncodeRef (u : Nat) : List Nat :=
  if u < 0x80 then [u]
  else if u < 0x800 then [0xc0 + u / 64, 0x80 + u % 64]
  else if u < 0x10000 then [0xe0 + u / 4096, 0x80 + u / 64 % 64, 0x80 + u % 64]
  else [0xf0 + u / 262144, 0x80 + u / 4096 % 64, 0x80 + u / 64 % 64, 0x80 + u % 64]

/-- The character path of `_glfmOnInputEvent` for AINPUT_EVENT_TYPE_KEY events
(lines 1091-1107): for key-down and multiple actions, if the looked-up code
point is at least a space, fire the char callback (once, or once per repeat
count).  `unicode` is the result of the `_glfmGetUnicodeChar` JNI lookup and
`repeatCount` the result of `AKeyEvent_getRepeatCount`, both environment
inputs.  The preceding key-callback block (lines 1017-1090) only invokes the
key callback and computes the `handled` flag; it shares no state with this
block and is not needed by any claim, so it is not modelled. -/
def charPathEvents (cb : CB) (action : KeyAction) (unicode : Nat)
    (repeatCount : Int) : List Ev :=
  if cb.charF then
    if action = KeyAction.down ∨ action = KeyAction.multiple then
      if 32 ≤ unicode then
        if action = KeyAction.down then
          [Ev.char (glfmUnicodeToUTF8 unicode)]
        else
          List.replicate repeatCount.toNat (Ev.char (glfmUnicodeToUTF8 unicode))
      else []
    else []
  else []

lemma or128_eq_add : ∀ x < 64, 128 ||| x = 128 + x := by decide

lemma or192_eq_add : ∀ x < 32, 192 ||| x = 192 + x := by decide

lemma or224_eq_add : ∀ x < 16, 224 ||| x = 224 + x := by decide

lemma or240_eq_add : ∀ x < 8, 240 ||| x = 240 + x := by decide

/-- The C encoder agrees with the standard UTF-8 encoding on every code point
below 0x110000. -/
lemma glfmUnicodeToUTF8_eq_ref (u : Nat) (h : u < 1114112) :
    glfmUnicodeToUTF8 u = utf8EncodeRef u := by
  have hA : ∀ x : Nat, x &&& 63 = x % 64 := fun x => Nat.and_pow_two_sub_one_eq_mod x 6
  have hA7 : ∀ x : Nat, x &&& 127 = x % 128 := fun x => Nat.and_pow_two_sub_one_eq_mod x 7
  have h6 : u >>> 6 = u / 64 := Nat.shiftRight_eq_div_pow u 6
  have h12 : u >>> 12 = u / 4096 := Nat.shiftRight_eq_div_pow u 12
  have h18 : u >>> 18 = u / 262144 := Nat.shiftRight_eq_div_pow u 18
  by_cases c1 : u < 128
  · have e1 : u % 128 = u := Nat.mod_eq_of_lt c1
    have e2 : u % 256 = u := Nat.mod_eq_of_lt (by omega)
    simp only [glfmUnicodeToUTF8, utf8EncodeRef, if_pos c1, hA7, e1, e2]
  · by_cases c2 : u < 2048
    · have b1 : 192 ||| u / 64 = 192 + u / 64 := or192_eq_add (u / 64) (by omega)
      have b2 : 128 ||| u % 64 = 128 + u % 64 := or128_eq_add (u % 64) (by omega)
      have e1 : (192 + u / 64) % 256 = 192 + u / 64 := Nat.mod_eq_of_lt (by omega)
      have e2 : (128 + u % 64) % 256 = 128 + u % 64 := Nat.mod_eq_of_lt (by omega)
      simp only [glfmUnicodeToUTF8, utf8EncodeRef, if_neg c1, if_pos c2, h6, hA,
        b1, b2, e1, e2]
    · by_cases c3 : u < 65536
      · have b1 : 224 ||| u / 4096 = 224 + u / 4096 := or224_eq_add (u / 4096) (by omega)
        have b2 : 128 ||| u / 64 % 64 = 128 + u / 64 % 64 :=
          or128_eq_add (u / 64 % 64) (by omega)
        have b3 : 128 ||| u % 64 = 128 + u % 64 := or128_eq_add (u % 64) (by omega)
        have e1 : (224 + u / 4096) % 256 = 224 + u / 4096 := Nat.mod_eq_of_lt (by omega)
        have e2 : (128 + u / 64 % 64) % 256 = 128 + u / 64 % 64 :=
          Nat.mod_eq_of_lt (by omega)
        have e3 : (128 + u % 64) % 256 = 128 + u % 64 := Nat.mod_eq_of_lt (by omega)
        simp only [glfmUnicodeToUTF8, utf8EncodeRef, if_neg c1, if_neg c2, if_pos c3,
          h6, h12, hA, b1, b2, b3, e1, e2, e3]
      · have b1 : 240 ||| u / 262144 = 240 + u / 262144 :=
          or240_eq_add (u / 262144) (by omega)
        have b2 : 128 ||| u / 4096 % 64 = 128 + u / 4096 % 64 :=
          or128_eq_add (u / 4096 % 64) (by omega)
        have b3 : 128 ||| u / 64 % 64 = 128 + u / 64 % 64 :=
          or128_eq_add (u / 64 % 64) (by omega)
        have b4 : 128 ||| u % 64 = 128 + u % 64 := or128_eq_add (u % 64) (by omega)
        have e1 : (240 + u / 262144) % 256 = 240 + u / 262144 :=
          Nat.mod_eq_of_lt (by omega)
        have e2 : (128 + u / 4096 % 64) % 256 = 128 + u / 4096 % 64 :=
          Nat.mod_eq_of_lt (by omega)
        have e3 : (128 + u / 64 % 64) % 256 = 128 + u / 64 % 64 :=
          Nat.mod_eq_of_lt (by omega)
        have e4 : (128 + u % 64) % 256 = 128 + u % 64 := Nat.mod_eq_of_lt (by omega)
        simp only [glfmUnicodeToUTF8, utf8EncodeRef, if_neg c1, if_neg c2, if_neg c3,
          if_pos h, h6, h12, h18, hA, b1, b2, b3, b4, e1, e2, e3, e4]

lemma utf8EncodeRef_length (u : Nat) :
    1 ≤ (utf8EncodeRef u).length ∧ (utf8EncodeRef u).length ≤ 4 := by
  unfold utf8EncodeRef
  split_ifs <;> simp

lemma utf8EncodeRef_tail (u : Nat) :
    ∀ b ∈ (utf8EncodeRef u).tail, 128 ≤ b ∧ b < 192 := by
  intro b hb
  unfold utf8EncodeRef at hb
  split_ifs at hb
  · simp at hb
  · simp at hb; omega
  · simp at hb; rcases hb with rfl | rfl <;> omega
  · simp at hb; rcases hb with rfl | rfl | rfl <;> omega

/-- C6: for every Unicode code point at least 0x20 reaching the character
path, the callback receives the standard UTF-8 encoding of it (1-4 bytes with
standard continuation bytes), fired once for a key-down action and once per
repeat count for a multiple action; code point 0x1F600 yields F0 9F 98 80. -/
theorem c6_char_path_utf8 (cb : CB) (u : Nat) (r : Int)
    (hcb : cb.charF = true) (hlo : 32 ≤ u) (hhi : u < 1114112) :
    charPathEvents cb KeyAction.down u r = [Ev.char (glfmUnicodeToUTF8 u)]
    ∧ charPathEvents cb KeyAction.multiple u r
        = List.replicate r.toNat (Ev.char (glfmUnicodeToUTF8 u))
    ∧ glfmUnicodeToUTF8 u = utf8EncodeRef u
    ∧ 1 ≤ (glfmUnicodeToUTF8 u).length ∧ (glfmUnicodeToUTF8 u).length ≤ 4
    ∧ (∀ b ∈ (glfmUnicodeToUTF8 u).tail, 128 ≤ b ∧ b < 192)
    ∧ glfmUnicodeToUTF8 128512 = [0xF0, 0x9F, 0x98, 0x80] := by
  have href := glfmUnicodeToUTF8_eq_ref u hhi
  refine ⟨?_, ?_, href, ?_, ?_, ?_, by decide⟩
  · simp [charPathEvents, hcb, hlo]
  · simp [charPathEvents, hcb, hlo]
  · rw [href]; exact (utf8EncodeRef_length u).1
  · rw [href]; exact (utf8EncodeRef_length u).2
  · rw [href]; exact utf8EncodeRef_tail u

/-- Witness for C6 at the concrete code point 0x1F600 with repeat count 3. -/
theorem c6_char_path_utf8_witness :
    cbAll.charF = true ∧ 32 ≤ 128512 ∧ 128512 < 1114112 ∧
    (charPathEvents cbAll KeyAction.down 128512 3
        = [Ev.char (glfmUnicodeToUTF8 128512)]
      ∧ charPathEvents cbAll KeyAction.multiple 128512 3
          = List.replicate (3 : Int).toNat (Ev.char (glfmUnicodeToUTF8 128512))
      ∧ glfmUnicodeToUTF8 128512 = utf8EncodeRef 128512
      ∧ 1 ≤ (glfmUnicodeToUTF8 128512).length
      ∧ (glfmUnicodeToUTF8 128512).length ≤ 4
      ∧ (∀ b ∈ (glfmUnicodeToUTF8 128512).tail, 128 ≤ b ∧ b < 192)
      ∧ glfmUnicodeToUTF8 128512 = [0xF0, 0x9F, 0x98, 0x80]) :=
  ⟨rfl, by decide, by decide,
    c6_char_path_utf8 cbAll 128512 3 rfl (by decide) (by decide)⟩

/-! ## Touch input (`_glfmOnInputEvent`, motion branch, lines 1109-1168) -/

/-- An AINPUT_EVENT_TYPE_MOTION event as the C code observes it:
`AMotionEvent_getAction`, `AMotionEvent_getPointerCount`, and the per-index
accessors `AMotionEvent_getPointerId` / `getX` / `getY` (the latter two are
pass-through data, see the header comment). -/
structure MotionEvent where
  action : Nat
  pointerCount : Nat
  pid : Nat → Int
  px : Nat → Int
  py : Nat → Int

/-- The AINPUT_EVENT_TYPE_MOTION branch of `_glfmOnInputEvent`.  The Android
NDK constants involved: AMOTION_EVENT_ACTION_MASK = 0xff,
AMOTION_EVENT_ACTION_POINTER_INDEX_MASK = 0xff00 with shift 8, and the masked
action codes DOWN=0, UP=1, MOVE=2, CANCEL=3, OUTSIDE=4, POINTER_DOWN=5,
POINTER_UP=6.  The branch always returns 1 to the OS; only the emitted touch
callbacks matter here. -/
def glfmOnInputEventMotion (cb : CB) (multitouchEnabled : Bool)
    (ev : MotionEvent) : List Ev :=
  if cb.touchF then
    let maxTouches : Int := if multitouchEnabled then MAX_SIMULTANEOUS_TOUCHES else 1
    let maskedAction := ev.action &&& 0xff
    let phaseAndValid : Option Phase :=
      if maskedAction = 0 ∨ maskedAction = 5 then some Phase.began
      else if maskedAction = 1 ∨ maskedAction = 6 ∨ maskedAction = 4 then some Phase.ended
      else if maskedAction = 2 then some Phase.moved
      else if maskedAction = 3 then some Phase.cancelled
      else none
    match phaseAndValid with
    | none => []
    | some phase =>
      if phase = Phase.moved then
        (List.range ev.pointerCount).foldl (fun acc i =>
          if 0 ≤ ev.pid i ∧ ev.pid i < maxTouches then
            acc ++ [Ev.touch (ev.pid i) phase (ev.px i) (ev.py i)]
          else acc) []
      else
        let index := (ev.action &&& 0xff00) >>> 8
        if 0 ≤ ev.pid index ∧ ev.pid index < maxTouches then
          [Ev.touch (ev.pid index) phase (ev.px index) (ev.py index)]
        else []
  else []

lemma mem_foldl_guarded_append {α β : Type} (p : α → Prop) [DecidablePred p]
    (e : α → β) (l : List α) (init : List β) :
    ∀ x ∈ l.foldl (fun acc a => if p a then acc ++ [e a] else acc) init,
      x ∈ init ∨ ∃ a, a ∈ l ∧ p a ∧ x = e a := by
  induction l generalizing init with
  | nil => exact fun x hx => Or.inl hx
  | cons a t ih =>
    intro x hx
    simp only [List.foldl_cons] at hx
    rcases ih _ x hx with hi | ⟨b, hb, hpb, rfl⟩
    · by_cases hpa : p a
      · rw [if_pos hpa] at hi
        rcases List.mem_append.mp hi with h | h
        · exact Or.inl h
        · exact Or.inr ⟨a, List.mem_cons_self a t, hpa, (List.mem_singleton.mp h).symm ▸ rfl⟩
      · rw [if_neg hpa] at hi
        exact Or.inl hi
    · exact Or.inr ⟨b, List.mem_cons_of_mem a hb, hpb, rfl⟩

/-- C4: every touch callback delivered by the motion branch carries an
identifier in [0, maxTouches), where maxTouches is 5 with multitouch enabled
and 1 without; out-of-range pointers produce no callback, and with multitouch
disabled only identifier 0 is ever delivered. -/
theorem c4_touch_identifier_bounds (cb : CB) (multi : Bool) (ev : MotionEvent)
    (n : Int) (p : Phase) (x y : Int)
    (hmem : Ev.touch n p x y ∈ glfmOnInputEventMotion cb multi ev) :
    (0 ≤ n ∧ n < (if multi then MAX_SIMULTANEOUS_TOUCHES else 1))
    ∧ (multi = false → n = 0) := by
  unfold glfmOnInputEventMotion at hmem
  by_cases hcb : cb.touchF
  · rw [if_pos hcb] at hmem
    simp only at hmem
    have hbound : 0 ≤ n ∧ n < (if multi then MAX_SIMULTANEOUS_TOUCHES else 1) := by
      split at hmem
      · simp at hmem
      · split at hmem
        · rcases mem_foldl_guarded_append _ _ _ _ _ hmem with h | ⟨i, _, hp, he⟩
          · simp at h
          · rcases he with ⟨rfl, rfl, rfl, rfl⟩
            exact hp
        · split_ifs at hmem with hm hg hg'
          · rcases List.mem_singleton.mp hmem with ⟨rfl, rfl, rfl, rfl⟩
            rw [if_pos hm]
            exact hg
          · simp at hmem
          · rcases List.mem_singleton.mp hmem with ⟨rfl, rfl, rfl, rfl⟩
            rw [if_neg hm]
            exact hg'
          · simp at hmem
    refine ⟨hbound, fun hm => ?_⟩
    subst hm
    simp only [if_neg Bool.false_ne_true] at hbound
    omega
  · rw [if_neg hcb] at hmem
    simp at hmem

/-- Witness for C4: multitouch disabled, a MOVE action batching pointer ids
0 and 1; only id 0 is delivered. -/
theorem c4_touch_identifier_bounds_witness :
    (Ev.touch 0 Phase.moved 10 20 ∈ glfmOnInputEventMotion cbAll false
      { action := 2, pointerCount := 2, pid := fun i => Int.ofNat i,
        px := fun _ => 10, py := fun _ => 20 })
    ∧ ((0 ≤ (0 : Int) ∧ (0 : Int) < (if false then MAX_SIMULTANEOUS_TOUCHES else 1))
        ∧ (false = false → (0 : Int) = 0)) :=
  ⟨by decide,
    c4_touch_identifier_bounds cbAll false
      { action := 2, pointerCount := 2, pid := fun i => Int.ofNat i,
        px := fun _ => 10, py := fun _ => 20 } 0 Phase.moved 10 20 (by decide)⟩

/-! ## Platform state and lifecycle (`GLFMPlatformData`, EGL functions,
`_glfmOnAppCmd`, `android_main` loop) -/

/-- Results of the external calls made by `_glfmEGLContextInit`: whether some
descending-tier `eglCreateContext` attempt succeeds, and whether
`eglMakeCurrent` succeeds on the implementation-dependent case (both a context
and a surface exist; the spec-determined cases are computed, see
`glfmEGLContextInit`).  The achieved `renderingAPI` tier is recorded by the C
code but read by no modelled claim, so it is not part of the state. -/
structure CtxEnv where
  createOK : Bool
  makeCurrentOK : Bool

/-- Results of the external calls made by `_glfmEGLInit`: whether the
eglChooseConfig relaxation loop finds a config, whether the
`eglCreateWindowSurface` call in `_glfmEGLSurfaceInit` succeeds, the
context-init results, and the surface sizes from `eglQuerySurface`. -/
structure InitEnv where
  configOK : Bool
  surfOK : Bool
  ctx : CtxEnv
  surfW : Int
  surfH : Int

/-- Classification of `eglGetError()` in `_glfmEGLCheckError`: EGL_BAD_SURFACE;
EGL_CONTEXT_LOST or EGL_BAD_CONTEXT; anything else. -/
inductive ErrClass where
  | badSurface
  | contextLost
  | other

/-- Environment for `_glfmEGLCheckError`: the error class, plus the external
results for the `_glfmEGLSurfaceInit` (badSurface path), the
`_glfmEGLContextInit` (contextLost path) or the `_glfmEGLInit` (other path)
it performs. -/
structure CheckEnv where
  err : ErrClass
  surfOK : Bool
  ctx : CtxEnv
  init : InitEnv

/-- Environment for `_glfmDrawFrame` / `_glfmUpdateSurfaceSizeIfNeeded`: the
live surface size from `eglQuerySurface` and the display rotation-derived
orientation from `glfmGetInterfaceOrientation` (a JNI query). -/
structure DrawEnv where
  liveW : Int
  liveH : Int
  orient : Int

/-- Environment for the sensor multiplexer: per-kind device-sensor
availability, event-queue creation success, and enable/disable return codes. -/
structure SensorEnv where
  avail : Fin 4 → Bool
  createQueueOK : Bool
  enableOK : Fin 4 → Bool
  disableOK : Fin 4 → Bool

/-- `GLFMPlatformData` (the global singleton), restricted to the fields the
modelled code reads or writes.  `scale`, `lastSwapTime` and the JNI handles
are excluded (see the header comment); `app->contentRect` is folded in as
`contentRect`; `sensorEventQueue != NULL` is `hasSensorQueue`. -/
structure PD where
  multitouchEnabled : Bool
  keyboardFrame : ARect
  keyboardVisible : Bool
  animating : Bool
  hasInited : Bool
  refreshRequested : Bool
  swapCalled : Bool
  eglDisplay : Bool
  eglSurface : Bool
  eglContext : Bool
  eglContextCurrent : Bool
  width : Int
  height : Int
  resizeEventWaitFrames : Int
  orientation : Int
  contentRect : ARect
  sensorEventValid : Fin 4 → Bool
  deviceSensorEnabled : Fin 4 → Bool
  hasSensorQueue : Bool

/-- The state after the `android_main` preamble: calloc zeroes everything,
then `refreshRequested = true`, `resizeEventWaitFrames = 5`, and `orientation`
is read from the windowing system (an input, `orient0`). -/
def initPD (orient0 : Int) : PD :=
  { multitouchEnabled := false, keyboardFrame := ⟨0, 0, 0, 0⟩,
    keyboardVisible := false, animating := false, hasInited := false,
    refreshRequested := true, swapCalled := false, eglDisplay := false,
    eglSurface := false, eglContext := false, eglContextCurrent := false,
    width := 0, height := 0,
    resizeEventWaitFrames := RESIZE_EVENT_MAX_WAIT_FRAMES,
    orientation := orient0, contentRect := ⟨0, 0, 0, 0⟩,
    sensorEventValid := fun _ => false, deviceSensorEnabled := fun _ => false,
    hasSensorQueue := false }

/-- `_glfmEGLContextInit` (lines 435-528): create a context at descending
tiers if none exists, call `eglMakeCurrent(display, surface, surface,
context)`, and on a successful make-current of a freshly created context fire
surface-created with the stored sizes.  Returns the make-current success.
`eglCreateContext` fails when given `EGL_NO_DISPLAY`, so creation requires
the display.  `eglMakeCurrent` is modelled per the EGL specification: with an
invalid display it fails (`EGL_BAD_DISPLAY`); with a context and a surface
its success is the external result `env.makeCurrentOK`; with neither
(`EGL_NO_SURFACE`/`EGL_NO_CONTEXT`) it is the release form and succeeds; a
context without a surface or a surface without a context is
`EGL_BAD_MATCH`. -/
def glfmEGLContextInit (cb : CB) (env : CtxEnv) (pd : PD) : PD × List Ev × Bool :=
  let created := !pd.eglContext && env.createOK && pd.eglDisplay
  let pdc := if created then { pd with eglContext := true } else pd
  let mkcOK := pdc.eglDisplay &&
    (if pdc.eglContext && pdc.eglSurface then env.makeCurrentOK
     else !pdc.eglContext && !pdc.eglSurface)
  if mkcOK then
    let pd2 := { pdc with eglContextCurrent := true }
    if created && cb.surfaceCreatedF then
      (pd2, [Ev.surfaceCreated pd2.width pd2.height], true)
    else (pd2, [], true)
  else
    ({ pdc with eglContextCurrent := false }, [], false)

/-- `_glfmEGLContextDisable` (lines 530-535). -/
def glfmEGLContextDisable (pd : PD) : PD :=
  { pd with eglContextCurrent := false }

/-- `_glfmEGLSurfaceInit` (lines 537-554): if no surface exists, call
`eglCreateWindowSurface`, whose external success is `ok` (on failure the
handle stays `EGL_NO_SURFACE`); the swap-behavior attribute has no modelled
state. -/
def glfmEGLSurfaceInit (ok : Bool) (pd : PD) : PD :=
  if !pd.eglSurface then
    (if ok then { pd with eglSurface := true } else pd)
  else pd

/-- `_glfmEGLSurfaceDestroy` (lines 707-713). -/
def glfmEGLSurfaceDestroy (pd : PD) : PD :=
  glfmEGLContextDisable { pd with eglSurface := false }

/-- `_glfmEGLInit` (lines 581-705): with a display, just surface-init and
context-init; otherwise negotiate a config (the relaxation loop either finds
one or fails and terminates the display), query the surface sizes into
width/height, and context-init. -/
def glfmEGLInit (cb : CB) (env : InitEnv) (pd : PD) : PD × List Ev × Bool :=
  if pd.eglDisplay then
    glfmEGLContextInit cb env.ctx (glfmEGLSurfaceInit env.surfOK pd)
  else if env.configOK then
    let pd1 := glfmEGLSurfaceInit env.surfOK { pd with eglDisplay := true }
    glfmEGLContextInit cb env.ctx { pd1 with width := env.surfW, height := env.surfH }
  else
    (pd, [], false)

/-- `_glfmEGLDestroy` (lines 715-736): fire surface-destroyed if a display and
a context existed, then null out all handles. -/
def glfmEGLDestroy (cb : CB) (pd : PD) : PD × List Ev :=
  ({ pd with eglDisplay := false, eglContext := false, eglSurface := false,
             eglContextCurrent := false },
   if pd.eglDisplay && pd.eglContext && cb.surfaceDestroyedF
   then [Ev.surfaceDestroyed] else [])

/-- `_glfmEGLCheckError` (lines 738-759). -/
def glfmEGLCheckError (cb : CB) (env : CheckEnv) (pd : PD) : PD × List Ev :=
  match env.err with
  | ErrClass.badSurface =>
      (glfmEGLSurfaceInit env.surfOK (glfmEGLSurfaceDestroy pd), [])
  | ErrClass.contextLost =>
      let lost := pd.eglContext
      let pd1 := if lost then { pd with eglContext := false, eglContextCurrent := false }
                 else pd
      let r := glfmEGLContextInit cb env.ctx pd1
      (r.1, (if lost && cb.surfaceDestroyedF then [Ev.surfaceDestroyed] else []) ++ r.2.1)
  | ErrClass.other =>
      let r1 := glfmEGLDestroy cb pd
      let r2 := glfmEGLInit cb env.init r1.1
      (r2.1, r1.2 ++ r2.2.1)

/-- `_glfmReportOrientationChangeIfNeeded` (lines 1512-1522). -/
def glfmReportOrientationChangeIfNeeded (cb : CB) (orient : Int) (pd : PD) :
    PD × List Ev :=
  if pd.orientation ≠ orient then
    ({ pd with orientation := orient, refreshRequested := true },
     if cb.orientationChangedF then [Ev.orientationChanged orient] else [])
  else (pd, [])

/-- `_glfmUpdateSurfaceSizeIfNeeded` (lines 1488-1510). -/
def glfmUpdateSurfaceSizeIfNeeded (cb : CB) (env : DrawEnv) (force : Bool)
    (pd : PD) : PD × List Ev :=
  if env.liveW ≠ pd.width ∨ env.liveH ≠ pd.height then
    if force || pd.resizeEventWaitFrames ≤ 0 then
      let pd1 := { pd with resizeEventWaitFrames := RESIZE_EVENT_MAX_WAIT_FRAMES,
                           refreshRequested := true,
                           width := env.liveW, height := env.liveH }
      let r := glfmReportOrientationChangeIfNeeded cb env.orient pd1
      (r.1, r.2 ++ (if cb.resizeF then [Ev.resize env.liveW env.liveH] else []))
    else
      ({ pd with resizeEventWaitFrames := pd.resizeEventWaitFrames - 1 }, [])
  else (pd, [])

/-- `_glfmDrawFrame` (lines 761-780). -/
def glfmDrawFrame (cb : CB) (env : DrawEnv) (pd : PD) : PD × List Ev :=
  if !pd.eglContextCurrent then (pd, [])
  else
    let r1 := glfmUpdateSurfaceSizeIfNeeded cb env false pd
    let r2 : PD × List Ev :=
      if r1.1.refreshRequested then
        ({ r1.1 with refreshRequested := false },
         if cb.refreshF then [Ev.refresh] else [])
      else (r1.1, [])
    (r2.1, r1.2 ++ r2.2 ++ (if cb.renderF then [Ev.render] else []))

/-! ### Keyboard visibility (`_glfmUpdateKeyboardVisibility`, lines 808-872) -/

def rectWidth (r : ARect) : Int := r.right - r.left

def rectHeight (r : ARect) : Int := r.bottom - r.top

def rectArea (r : ARect) : Int := rectWidth r * rectHeight r

/-- The four non-visible bands (left, right, top, bottom) between the window
rect and the visible display frame, in the C array order. -/
def kbNonVisibleRects (windowRect visibleRect : ARect) : List ARect :=
  [⟨windowRect.left, windowRect.top, visibleRect.left, windowRect.bottom⟩,
   ⟨visibleRect.right, windowRect.top, windowRect.right, windowRect.bottom⟩,
   ⟨windowRect.left, windowRect.top, windowRect.right, visibleRect.top⟩,
   ⟨windowRect.left, visibleRect.bottom, windowRect.right, windowRect.bottom⟩]

/-- The C selection loop: largest area among rects with width and height at
least `minKb`, starting from index 0 and area -1. -/
def kbSelectBest (minKb : Int) (rects : List ARect) : ARect × Int :=
  rects.foldl
    (fun best r =>
      if minKb ≤ rectWidth r ∧ minKb ≤ rectHeight r ∧ best.2 < rectArea r
      then (r, rectArea r) else best)
    (rects.headD ⟨0, 0, 0, 0⟩, -1)

/-- `_glfmUpdateKeyboardVisibility`.  `minKb` is the C value
`(int)(100 * platformData->scale)` (scale is fixed at startup); `visibleFrameQ`
is the result of the `_glfmGetWindowVisibleDisplayFrame` JNI query, which
falls back to the window rect itself on failure. -/
def glfmUpdateKeyboardVisibility (cb : CB) (minKb : Int)
    (visibleFrameQ : Option ARect) (pd : PD) : PD × List Ev :=
  let windowRect := pd.contentRect
  let visibleRect := visibleFrameQ.getD windowRect
  let best := kbSelectBest minKb (kbNonVisibleRects windowRect visibleRect)
  let keyboardVisible : Bool := decide (0 < best.2)
  let keyboardFrame := if keyboardVisible then best.1 else ⟨0, 0, 0, 0⟩
  if pd.keyboardVisible ≠ keyboardVisible ∨ pd.keyboardFrame ≠ keyboardFrame then
    ({ pd with keyboardVisible := keyboardVisible, keyboardFrame := keyboardFrame,
               refreshRequested := true },
     if cb.keyboardVisibilityChangedF then
       [Ev.keyboardVisibilityChanged keyboardVisible keyboardFrame.left
          keyboardFrame.top (rectWidth keyboardFrame) (rectHeight keyboardFrame)]
     else [])
  else (pd, [])

/-! ### Sensors and animating (`_glfmSetAllRequestedSensorsEnabled`,
`_glfmSetAnimating`) -/

/-- One iteration of the loop in `_glfmSetAllRequestedSensorsEnabled`
(lines 1749-1793).  `Ev.sensorEnable` / `Ev.sensorDisable` record the
`ASensorEventQueue_enableSensor` / `disableSensor` calls (the device-state
flag is updated only when the call returns 0). -/
def glfmSensorStep (cb : CB) (env : SensorEnv) (enabledGlobally : Bool)
    (pd : PD) (i : Fin 4) : PD × List Ev :=
  let shouldEnable := enabledGlobally && cb.sensorF i
  let isEnabled := pd.deviceSensorEnabled i
  let pd1 := if !shouldEnable then
      { pd with sensorEventValid := Function.update pd.sensorEventValid i false }
    else pd
  if isEnabled == shouldEnable || !(env.avail i) then (pd1, [])
  else if !pd1.hasSensorQueue && !env.createQueueOK then (pd1, [])
  else
    let pd2 := { pd1 with hasSensorQueue := true }
    if shouldEnable && !isEnabled then
      ((if env.enableOK i then
          { pd2 with deviceSensorEnabled := Function.update pd2.deviceSensorEnabled i true }
        else pd2),
       [Ev.sensorEnable i])
    else if !shouldEnable && isEnabled then
      ((if env.disableOK i then
          { pd2 with deviceSensorEnabled := Function.update pd2.deviceSensorEnabled i false }
        else pd2),
       [Ev.sensorDisable i])
    else (pd2, [])

/-- `_glfmSetAllRequestedSensorsEnabled` (lines 1749-1793). -/
def glfmSetAllRequestedSensorsEnabled (cb : CB) (env : SensorEnv)
    (enabledGlobally : Bool) (pd : PD) : PD × List Ev :=
  (List.finRange 4).foldl
    (fun acc i =>
      let r := glfmSensorStep cb env enabledGlobally acc.1 i
      (r.1, acc.2 ++ r.2))
    (pd, [])

/-- `_glfmSetAnimating` (lines 876-887). -/
def glfmSetAnimating (cb : CB) (senv : SensorEnv) (pd : PD) (animating : Bool) :
    PD × List Ev :=
  if pd.animating ≠ animating then
    let pd1 := { pd with animating := animating, refreshRequested := true }
    let fr : PD × List Ev :=
      if !pd1.hasInited && animating then ({ pd1 with hasInited := true }, [])
      else (pd1, if cb.focusF then [Ev.focus animating] else [])
    let sr := glfmSetAllRequestedSensorsEnabled cb senv animating fr.1
    (sr.1, fr.2 ++ sr.2)
  else (pd, [])

/-! ### Lifecycle commands and the main loop -/

/-- The lifecycle commands of `_glfmOnAppCmd` (lines 889-982), each carrying
the environment records for the external calls its handler makes. -/
inductive Cmd where
  | saveState
  | initWindow (ie : InitEnv) (ce : CheckEnv) (de : DrawEnv)
  | windowResized
  | termWindow (se : SensorEnv)
  | redrawNeeded
  | gainedFocus (se : SensorEnv)
  | lostFocus (de : DrawEnv) (se : SensorEnv)
  | contentRectChanged (r : ARect) (de : DrawEnv) (orient : Int) (kb : Option ARect)
  | lowMemory
  | start
  | resume
  | pause
  | stop
  | destroyCmd
  | unknown

/-- `_glfmOnAppCmd`.  `minKb` is the keyboard-size threshold (see
`glfmUpdateKeyboardVisibility`); APP_CMD_START's `_glfmSetFullScreen` is
JNI-only. -/
def glfmOnAppCmd (cb : CB) (minKb : Int) (pd : PD) (c : Cmd) : PD × List Ev :=
  match c with
  | Cmd.saveState => (pd, [])
  | Cmd.initWindow ie ce de =>
      let r1 := glfmEGLInit cb ie pd
      let r2 : PD × List Ev := if r1.2.2 then (r1.1, []) else glfmEGLCheckError cb ce r1.1
      let r3 := glfmDrawFrame cb de { r2.1 with refreshRequested := true }
      (r3.1, r1.2.1 ++ r2.2 ++ r3.2)
  | Cmd.windowResized => (pd, [])
  | Cmd.termWindow se =>
      glfmSetAnimating cb se (glfmEGLSurfaceDestroy pd) false
  | Cmd.redrawNeeded => ({ pd with refreshRequested := true }, [])
  | Cmd.gainedFocus se => glfmSetAnimating cb se pd true
  | Cmd.lostFocus de se =>
      if pd.animating then
        let r1 := glfmDrawFrame cb de { pd with refreshRequested := true }
        let r2 := glfmSetAnimating cb se r1.1 false
        (r2.1, r1.2 ++ r2.2)
      else (pd, [])
  | Cmd.contentRectChanged r de orient kb =>
      let pd1 := { pd with refreshRequested := true, contentRect := r }
      let r1 := glfmUpdateSurfaceSizeIfNeeded cb de true pd1
      let r2 := glfmReportOrientationChangeIfNeeded cb orient r1.1
      let r3 := glfmUpdateKeyboardVisibility cb minKb kb r2.1
      (r3.1, r1.2 ++ r2.2 ++ r3.2)
  | Cmd.lowMemory => (pd, if cb.lowMemoryF then [Ev.lowMemory] else [])
  | Cmd.start => (pd, [])
  | Cmd.resume => (pd, [])
  | Cmd.pause => (pd, [])
  | Cmd.stop => (pd, [])
  | Cmd.destroyCmd => glfmEGLDestroy cb pd
  | Cmd.unknown => (pd, [])

/-- One observable step of the `android_main` loop (lines 1271-1411): a
processed lifecycle command, the animating-gated bottom-of-loop draw, an
embedder `glfmSwapBuffers` call (made during a render callback; `ok` is the
`eglSwapBuffers` result), or the `destroyRequested` teardown path. -/
inductive Op where
  | app (c : Cmd)
  | loopFrame (de : DrawEnv)
  | appSwap (ok : Bool) (ce : CheckEnv)
  | loopDestroy (se : SensorEnv)

def glfmStepOp (cb : CB) (minKb : Int) (pd : PD) (op : Op) : PD × List Ev :=
  match op with
  | Op.app c => glfmOnAppCmd cb minKb pd c
  | Op.loopFrame de =>
      if pd.animating then glfmDrawFrame cb de { pd with swapCalled := false }
      else (pd, [])
  | Op.appSwap ok ce =>
      let pd1 := { pd with swapCalled := true }
      if ok then (pd1, []) else glfmEGLCheckError cb ce pd1
  | Op.loopDestroy se =>
      let r1 : PD × List Ev :=
        if pd.hasSensorQueue then
          let s := glfmSetAllRequestedSensorsEnabled cb se false pd
          ({ s.1 with hasSensorQueue := false }, s.2)
        else (pd, [])
      let r2 := glfmEGLDestroy cb r1.1
      let r3 := glfmSetAnimating cb se r2.1 false
      (r3.1, r1.2 ++ r2.2 ++ r3.2)

/-- Run a sequence of observable steps, concatenating the callback trace. -/
def glfmRun (cb : CB) (minKb : Int) (pd : PD) : List Op → PD × List Ev
  | [] => (pd, [])
  | op :: ops =>
      let r := glfmStepOp cb minKb pd op
      let rr := glfmRun cb minKb r.1 ops
      (rr.1, r.2 ++ rr.2)

/-! ## Refresh rate (`_glfmGetRefreshRate`, lines 1453-1478) -/

/-- Results of the JNI query chain performed by one `_glfmGetRefreshRate`
call: getWindow, getWindowManager, getDefaultDisplay (each may return NULL or
throw), then getRefreshRate (`none` = exception; the float result is only
compared against 0, so it is carried as `Int`). -/
structure RefreshEnv where
  windowOK : Bool
  windowManagerOK : Bool
  displayOK : Bool
  rate : Option Int

/-- `_glfmGetRefreshRate`: each call performs the JNI query chain afresh
against the current environment — `GLFMPlatformData` has no field caching the
rate, so the function is a pure function of the query results alone.  Any
failure in the chain, or a non-positive reported rate, yields 60. -/
def glfmGetRefreshRate (env : RefreshEnv) : Int :=
  if !env.windowOK then 60
  else if !env.windowManagerOK then 60
  else if !env.displayOK then 60
  else
    match env.rate with
    | none => 60
    | some r => if r ≤ 0 then 60 else r

/-- Counterexample to C9's "queried lazily and cached": two calls whose
environments report different rates return those different fresh values (50
then 90); a cached implementation would return the first value twice.  The
embedding is stateless because the C function neither reads nor writes any
cache field. -/
theorem c9_counterexample :
    glfmGetRefreshRate ⟨true, true, true, some 50⟩ = 50
    ∧ glfmGetRefreshRate ⟨true, true, true, some 90⟩ = 90 :=
  ⟨rfl, rfl⟩

/-- C9 (amended): the refresh rate is re-queried on every call (no caching);
on any failure of the query chain, or a non-positive reported rate, 60 is
returned, and the returned rate is always positive. -/
theorem c9_refresh_rate_default (env : RefreshEnv) :
    0 < glfmGetRefreshRate env
    ∧ (env.windowOK = false → glfmGetRefreshRate env = 60)
    ∧ (env.windowManagerOK = false → glfmGetRefreshRate env = 60)
    ∧ (env.displayOK = false → glfmGetRefreshRate env = 60)
    ∧ (env.rate = none → glfmGetRefreshRate env = 60)
    ∧ (∀ r : Int, env.rate = some r → r ≤ 0 → glfmGetRefreshRate env = 60) := by
  obtain ⟨w, m, d, rate⟩ := env
  cases w <;> cases m <;> cases d <;> cases rate <;>
    (simp [glfmGetRefreshRate]; try (split_ifs <;> omega))

/-- Witness for C9 at a failing chain and at a non-positive rate. -/
theorem c9_refresh_rate_default_witness :
    glfmGetRefreshRate ⟨false, true, true, some 75⟩ = 60
    ∧ (∀ r : Int, some (-7 : Int) = some r → r ≤ 0 →
        glfmGetRefreshRate ⟨true, true, true, some (-7)⟩ = 60)
    ∧ 0 < glfmGetRefreshRate ⟨true, true, true, some (-7)⟩ :=
  ⟨(c9_refresh_rate_default ⟨false, true, true, some 75⟩).2.1 rfl,
   (c9_refresh_rate_default ⟨true, true, true, some (-7)⟩).2.2.2.2.2,
   (c9_refresh_rate_default ⟨true, true, true, some (-7)⟩).1⟩

/-! ## C2: the frame-drawing routine requires a current context -/

/-- C2: `_glfmDrawFrame` invokes the render and refresh callbacks only when
the context-current flag is set; when the flag is false it returns with the
state unchanged and no callback of any kind is invoked. -/
theorem c2_draw_requires_current (cb : CB) (env : DrawEnv) (pd : PD) :
    (pd.eglContextCurrent = false → glfmDrawFrame cb env pd = (pd, []))
    ∧ ((Ev.render ∈ (glfmDrawFrame cb env pd).2
        ∨ Ev.refresh ∈ (glfmDrawFrame cb env pd).2) →
        pd.eglContextCurrent = true) := by
  constructor
  · intro h
    simp [glfmDrawFrame, h]
  · intro h
    by_cases hc : pd.eglContextCurrent = true
    · exact hc
    · rw [Bool.not_eq_true] at hc
      simp [glfmDrawFrame, hc] at h
/-- Witness for C2: the initial state has no current context, so a draw is a
no-op. -/
theorem c2_draw_requires_current_witness :
    (initPD 0).eglContextCurrent = false
    ∧ glfmDrawFrame cbAll ⟨0, 0, 0⟩ (initPD 0) = (initPD 0, []) :=
  ⟨rfl, (c2_draw_requires_current cbAll ⟨0, 0, 0⟩ (initPD 0)).1 rfl⟩

/-! ## C10: setting animating to its current value is a no-op -/

lemma setAnimating_noop (cb : CB) (senv : SensorEnv) (pd : PD) (b : Bool)
    (h : pd.animating = b) : glfmSetAnimating cb senv pd b = (pd, []) := by
  simp [glfmSetAnimating, h]

/-- C10: `_glfmSetAnimating` with the current value of the flag changes no
state and performs no callback and no sensor enable/disable action. -/
theorem c10_setAnimating_idempotent (cb : CB) (senv : SensorEnv) (pd : PD)
    (b : Bool) (h : pd.animating = b) :
    glfmSetAnimating cb senv pd b = (pd, []) :=
  setAnimating_noop cb senv pd b h

/-- Witness for C10 at the initial state with `animating = false`. -/
theorem c10_setAnimating_idempotent_witness :
    (initPD 0).animating = false
    ∧ glfmSetAnimating cbAll
        ⟨fun _ => true, true, fun _ => true, fun _ => true⟩ (initPD 0) false
      = (initPD 0, []) :=
  ⟨rfl, c10_setAnimating_idempotent cbAll
    ⟨fun _ => true, true, fun _ => true, fun _ => true⟩ (initPD 0) false rfl⟩

/-! ## C7: keyboard-visibility heuristic -/

lemma kbSelectFold_spec (minKb : Int) (l : List ARect) :
    ∀ init : ARect × Int,
      init.2 ≤ (l.foldl
        (fun best r =>
          if minKb ≤ rectWidth r ∧ minKb ≤ rectHeight r ∧ best.2 < rectArea r
          then (r, rectArea r) else best) init).2
      ∧ (∀ r ∈ l, minKb ≤ rectWidth r → minKb ≤ rectHeight r →
          rectArea r ≤ (l.foldl
            (fun best r =>
              if minKb ≤ rectWidth r ∧ minKb ≤ rectHeight r ∧ best.2 < rectArea r
              then (r, rectArea r) else best) init).2)
      ∧ ((l.foldl
            (fun best r =>
              if minKb ≤ rectWidth r ∧ minKb ≤ rectHeight r ∧ best.2 < rectArea r
              then (r, rectArea r) else best) init) = init
          ∨ ((l.foldl
                (fun best r =>
                  if minKb ≤ rectWidth r ∧ minKb ≤ rectHeight r ∧ best.2 < rectArea r
                  then (r, rectArea r) else best) init).1 ∈ l
              ∧ minKb ≤ rectWidth (l.foldl
                  (fun best r =>
                    if minKb ≤ rectWidth r ∧ minKb ≤ rectHeight r ∧ best.2 < rectArea r
                    then (r, rectArea r) else best) init).1
              ∧ minKb ≤ rectHeight (l.foldl
                  (fun best r =>
                    if minKb ≤ rectWidth r ∧ minKb ≤ rectHeight r ∧ best.2 < rectArea r
                    then (r, rectArea r) else best) init).1
              ∧ (l.foldl
                  (fun best r =>
                    if minKb ≤ rectWidth r ∧ minKb ≤ rectHeight r ∧ best.2 < rectArea r
                    then (r, rectArea r) else best) init).2
                = rectArea (l.foldl
                    (fun best r =>
                      if minKb ≤ rectWidth r ∧ minKb ≤ rectHeight r ∧ best.2 < rectArea r
                      then (r, rectArea r) else best) init).1)) := by
  induction l with
  | nil => intro init; exact ⟨le_refl _, by simp, Or.inl rfl⟩
  | cons a t ih =>
    intro init
    simp only [List.foldl_cons]
    obtain ⟨ih1, ih2, ih3⟩ := ih (if minKb ≤ rectWidth a ∧ minKb ≤ rectHeight a
        ∧ init.2 < rectArea a then (a, rectArea a) else init)
    refine ⟨?_, ?_, ?_⟩
    · refine le_trans ?_ ih1
      split_ifs with hc
      · exact le_of_lt hc.2.2
      · exact le_refl _
    · intro r hr hw hh
      rcases List.mem_cons.mp hr with rfl | hrt
      · refine le_trans ?_ ih1
        split_ifs with hc
        · exact le_refl _
        · push_neg at hc
          exact le_of_not_lt fun hlt => (hc hw hh).not_lt hlt
      · exact ih2 r hrt hw hh
    · rcases ih3 with heq | ⟨hmem, hw, hh, harea⟩
      · rw [heq]
        split_ifs with hc
        · exact Or.inr ⟨List.mem_cons_self a t, hc.1, hc.2.1, rfl⟩
        · exact Or.inl rfl
      · exact Or.inr ⟨List.mem_cons_of_mem a hmem, hw, hh, harea⟩

lemma kbSelectBest_spec (minKb : Int) (hmin : 1 ≤ minKb) (wr vr : ARect) :
    (0 < (kbSelectBest minKb (kbNonVisibleRects wr vr)).2
      ↔ ∃ r ∈ kbNonVisibleRects wr vr, minKb ≤ rectWidth r ∧ minKb ≤ rectHeight r)
    ∧ (0 < (kbSelectBest minKb (kbNonVisibleRects wr vr)).2 →
        ((kbSelectBest minKb (kbNonVisibleRects wr vr)).1 ∈ kbNonVisibleRects wr vr
         ∧ minKb ≤ rectWidth (kbSelectBest minKb (kbNonVisibleRects wr vr)).1
         ∧ minKb ≤ rectHeight (kbSelectBest minKb (kbNonVisibleRects wr vr)).1
         ∧ ∀ r ∈ kbNonVisibleRects wr vr, minKb ≤ rectWidth r → minKb ≤ rectHeight r →
             rectArea r ≤ rectArea (kbSelectBest minKb (kbNonVisibleRects wr vr)).1)) := by
  obtain ⟨h1, h2, h3⟩ := kbSelectFold_spec minKb (kbNonVisibleRects wr vr)
    ((kbNonVisibleRects wr vr).headD ⟨0, 0, 0, 0⟩, -1)
  have hbest : kbSelectBest minKb (kbNonVisibleRects wr vr)
      = (kbNonVisibleRects wr vr).foldl
        (fun best r =>
          if minKb ≤ rectWidth r ∧ minKb ≤ rectHeight r ∧ best.2 < rectArea r
          then (r, rectArea r) else best)
        ((kbNonVisibleRects wr vr).headD ⟨0, 0, 0, 0⟩, -1) := rfl
  rw [hbest]
  constructor
  · constructor
    · intro hpos
      rcases h3 with heq | ⟨hmem, hw, hh, _⟩
      · rw [heq] at hpos
        omega
      · exact ⟨_, hmem, hw, hh⟩
    · rintro ⟨r, hr, hw, hh⟩
      have harea : 0 < rectArea r :=
        mul_pos (by unfold rectWidth at hw ⊢; omega) (by unfold rectHeight at hh ⊢; omega)
      exact lt_of_lt_of_le harea (h2 r hr hw hh)
  · intro hpos
    rcases h3 with heq | ⟨hmem, hw, hh, harea⟩
    · rw [heq] at hpos
      omega
    · exact ⟨hmem, hw, hh, fun r hr hrw hrh => harea ▸ h2 r hr hrw hrh⟩

/-- C7: keyboard visibility is computed from the four left/right/top/bottom
difference bands between the window rect and the visible-display-frame rect;
among the bands whose width and height both meet the minimum-keyboard-size
threshold (`(int)(100 * scale)` in the C code, here `minKb`; positive for any
real density), the one of largest area is selected; visibility is true exactly
when such a band exists; the keyboard-visibility callback is invoked exactly
when visibility or the selected frame changed; and for window rect
(0,0,1000,2000) with visible rect (0,0,1000,1500) the bottom band is selected:
visible with frame (0,1500,1000,2000) of area 500000. -/
theorem c7_keyboard_visibility (cb : CB) (minKb : Int) (vis : Option ARect)
    (pd : PD) (hmin : 1 ≤ minKb) (hcb : cb.keyboardVisibilityChangedF = true) :
    (0 < (kbSelectBest minKb (kbNonVisibleRects pd.contentRect
          (vis.getD pd.contentRect))).2
      ↔ ∃ r ∈ kbNonVisibleRects pd.contentRect (vis.getD pd.contentRect),
          minKb ≤ rectWidth r ∧ minKb ≤ rectHeight r)
    ∧ (0 < (kbSelectBest minKb (kbNonVisibleRects pd.contentRect
            (vis.getD pd.contentRect))).2 →
        ((kbSelectBest minKb (kbNonVisibleRects pd.contentRect
            (vis.getD pd.contentRect))).1
              ∈ kbNonVisibleRects pd.contentRect (vis.getD pd.contentRect)
         ∧ ∀ r ∈ kbNonVisibleRects pd.contentRect (vis.getD pd.contentRect),
             minKb ≤ rectWidth r → minKb ≤ rectHeight r →
             rectArea r ≤ rectArea (kbSelectBest minKb (kbNonVisibleRects
               pd.contentRect (vis.getD pd.contentRect))).1))
    ∧ ((glfmUpdateKeyboardVisibility cb minKb vis pd).1.keyboardVisible
        = decide (0 < (kbSelectBest minKb (kbNonVisibleRects pd.contentRect
            (vis.getD pd.contentRect))).2))
    ∧ ((glfmUpdateKeyboardVisibility cb minKb vis pd).2 = []
        ↔ (pd.keyboardVisible
            = decide (0 < (kbSelectBest minKb (kbNonVisibleRects pd.contentRect
                (vis.getD pd.contentRect))).2)
           ∧ pd.keyboardFrame
            = (glfmUpdateKeyboardVisibility cb minKb vis pd).1.keyboardFrame))
    ∧ (glfmUpdateKeyboardVisibility cb minKb vis pd).2.length ≤ 1
    ∧ kbSelectBest 100 (kbNonVisibleRects ⟨0, 0, 1000, 2000⟩ ⟨0, 0, 1000, 1500⟩)
        = (⟨0, 1500, 1000, 2000⟩, 500000) := by
  obtain ⟨hiff, hmax⟩ := kbSelectBest_spec minKb hmin pd.contentRect (vis.getD pd.contentRect)
  refine ⟨hiff, fun hpos => ⟨(hmax hpos).1, (hmax hpos).2.2.2⟩, ?_, ?_, ?_, by decide⟩
  · simp only [glfmUpdateKeyboardVisibility]
    split_ifs with ha hb hc
    · rfl
    · push_neg at hb
      exact hb.1
    · rfl
    · push_neg at hc
      exact hc.1
  · simp only [glfmUpdateKeyboardVisibility]
    split_ifs with ha hb hc
    · simp only [hcb, if_true]
      constructor
      · intro hx
        simp at hx
      · rintro ⟨e1, e2⟩
        rcases hb with h | h
        · exact absurd e1 h
        · exact absurd e2 h
    · push_neg at hb
      exact iff_of_true rfl ⟨hb.1, rfl⟩
    · simp only [hcb, if_true]
      constructor
      · intro hx
        simp at hx
      · rintro ⟨e1, e2⟩
        rcases hc with h | h
        · exact absurd e1 h
        · exact absurd e2 h
    · push_neg at hc
      exact iff_of_true rfl ⟨hc.1, rfl⟩
  · simp only [glfmUpdateKeyboardVisibility]
    split_ifs <;> simp [hcb]

/-- Witness for C7 at the spec's concrete rectangles. -/
theorem c7_keyboard_visibility_witness :
    (1 : Int) ≤ 100 ∧ cbAll.keyboardVisibilityChangedF = true ∧
    (0 < (kbSelectBest 100 (kbNonVisibleRects
        ({ initPD 0 with contentRect := ⟨0, 0, 1000, 2000⟩ } : PD).contentRect
        ((some (⟨0, 0, 1000, 1500⟩ : ARect)).getD
          ({ initPD 0 with contentRect := ⟨0, 0, 1000, 2000⟩ } : PD).contentRect))).2
     ∧ kbSelectBest 100 (kbNonVisibleRects ⟨0, 0, 1000, 2000⟩ ⟨0, 0, 1000, 1500⟩)
        = (⟨0, 1500, 1000, 2000⟩, 500000)) := by
  refine ⟨by decide, rfl, ?_, by decide⟩
  have h := c7_keyboard_visibility cbAll 100 (some ⟨0, 0, 1000, 1500⟩)
    { initPD 0 with contentRect := ⟨0, 0, 1000, 2000⟩ } (by decide) rfl
  exact h.1.mpr ⟨⟨0, 1500, 1000, 2000⟩, by decide, by decide, by decide⟩

/-! ## Field-preservation lemmas

The `animating` and `hasInited` bits are written only by `_glfmSetAnimating`;
every other modelled function leaves them unchanged.  These projection
equations let later proofs compose handlers. -/

@[simp] lemma ctxInit_anim (cb : CB) (env : CtxEnv) (pd : PD) :
    (glfmEGLContextInit cb env pd).1.animating = pd.animating := by
  simp only [glfmEGLContextInit]
  split_ifs <;> simp

@[simp] lemma ctxInit_inited (cb : CB) (env : CtxEnv) (pd : PD) :
    (glfmEGLContextInit cb env pd).1.hasInited = pd.hasInited := by
  simp only [glfmEGLContextInit]
  split_ifs <;> simp

@[simp] lemma surfInit_anim (ok : Bool) (pd : PD) :
    (glfmEGLSurfaceInit ok pd).animating = pd.animating := by
  simp only [glfmEGLSurfaceInit]
  split_ifs <;> simp

@[simp] lemma surfInit_inited (ok : Bool) (pd : PD) :
    (glfmEGLSurfaceInit ok pd).hasInited = pd.hasInited := by
  simp only [glfmEGLSurfaceInit]
  split_ifs <;> simp

@[simp] lemma surfDestroy_anim (pd : PD) :
    (glfmEGLSurfaceDestroy pd).animating = pd.animating := rfl

@[simp] lemma surfDestroy_inited (pd : PD) :
    (glfmEGLSurfaceDestroy pd).hasInited = pd.hasInited := rfl

@[simp] lemma eglInit_anim (cb : CB) (env : InitEnv) (pd : PD) :
    (glfmEGLInit cb env pd).1.animating = pd.animating := by
  simp only [glfmEGLInit]
  split_ifs <;> simp

@[simp] lemma eglInit_inited (cb : CB) (env : InitEnv) (pd : PD) :
    (glfmEGLInit cb env pd).1.hasInited = pd.hasInited := by
  simp only [glfmEGLInit]
  split_ifs <;> simp

@[simp] lemma eglDestroy_anim (cb : CB) (pd : PD) :
    (glfmEGLDestroy cb pd).1.animating = pd.animating := rfl

@[simp] lemma eglDestroy_inited (cb : CB) (pd : PD) :
    (glfmEGLDestroy cb pd).1.hasInited = pd.hasInited := rfl

@[simp] lemma checkError_anim (cb : CB) (env : CheckEnv) (pd : PD) :
    (glfmEGLCheckError cb env pd).1.animating = pd.animating := by
  obtain ⟨err, sOK, ctx, ie⟩ := env
  cases err <;> (simp [glfmEGLCheckError]; try (split_ifs <;> simp))

@[simp] lemma checkError_inited (cb : CB) (env : CheckEnv) (pd : PD) :
    (glfmEGLCheckError cb env pd).1.hasInited = pd.hasInited := by
  obtain ⟨err, sOK, ctx, ie⟩ := env
  cases err <;> (simp [glfmEGLCheckError]; try (split_ifs <;> simp))

@[simp] lemma reportOrient_anim (cb : CB) (o : Int) (pd : PD) :
    (glfmReportOrientationChangeIfNeeded cb o pd).1.animating = pd.animating := by
  simp only [glfmReportOrientationChangeIfNeeded]
  split_ifs <;> simp

@[simp] lemma reportOrient_inited (cb : CB) (o : Int) (pd : PD) :
    (glfmReportOrientationChangeIfNeeded cb o pd).1.hasInited = pd.hasInited := by
  simp only [glfmReportOrientationChangeIfNeeded]
  split_ifs <;> simp

@[simp] lemma updateSize_anim (cb : CB) (env : DrawEnv) (force : Bool) (pd : PD) :
    (glfmUpdateSurfaceSizeIfNeeded cb env force pd).1.animating = pd.animating := by
  simp only [glfmUpdateSurfaceSizeIfNeeded]
  split_ifs <;> simp

@[simp] lemma updateSize_inited (cb : CB) (env : DrawEnv) (force : Bool) (pd : PD) :
    (glfmUpdateSurfaceSizeIfNeeded cb env force pd).1.hasInited = pd.hasInited := by
  simp only [glfmUpdateSurfaceSizeIfNeeded]
  split_ifs <;> simp

@[simp] lemma drawFrame_anim (cb : CB) (env : DrawEnv) (pd : PD) :
    (glfmDrawFrame cb env pd).1.animating = pd.animating := by
  simp only [glfmDrawFrame]
  split_ifs <;> simp

@[simp] lemma drawFrame_inited (cb : CB) (env : DrawEnv) (pd : PD) :
    (glfmDrawFrame cb env pd).1.hasInited = pd.hasInited := by
  simp only [glfmDrawFrame]
  split_ifs <;> simp

@[simp] lemma updateKb_anim (cb : CB) (minKb : Int) (vis : Option ARect) (pd : PD) :
    (glfmUpdateKeyboardVisibility cb minKb vis pd).1.animating = pd.animating := by
  simp only [glfmUpdateKeyboardVisibility]
  split_ifs <;> simp

@[simp] lemma updateKb_inited (cb : CB) (minKb : Int) (vis : Option ARect) (pd : PD) :
    (glfmUpdateKeyboardVisibility cb minKb vis pd).1.hasInited = pd.hasInited := by
  simp only [glfmUpdateKeyboardVisibility]
  split_ifs <;> simp

@[simp] lemma sensorStep_anim (cb : CB) (env : SensorEnv) (g : Bool) (pd : PD) (i : Fin 4) :
    (glfmSensorStep cb env g pd i).1.animating = pd.animating := by
  simp only [glfmSensorStep]
  split_ifs <;> simp

@[simp] lemma sensorStep_inited (cb : CB) (env : SensorEnv) (g : Bool) (pd : PD) (i : Fin 4) :
    (glfmSensorStep cb env g pd i).1.hasInited = pd.hasInited := by
  simp only [glfmSensorStep]
  split_ifs <;> simp

lemma sensorsFold_keeps {α : Type} (cb : CB) (env : SensorEnv) (g : Bool) (f : PD → α)
    (hf : ∀ pd i, f (glfmSensorStep cb env g pd i).1 = f pd) :
    ∀ (l : List (Fin 4)) (pd : PD) (acc : List Ev),
      f ((l.foldl (fun ac i =>
        ((glfmSensorStep cb env g ac.1 i).1, ac.2 ++ (glfmSensorStep cb env g ac.1 i).2))
        (pd, acc)).1) = f pd := by
  intro l
  induction l with
  | nil => intro pd acc; rfl
  | cons a t ih =>
    intro pd acc
    simp only [List.foldl_cons]
    rw [ih ((glfmSensorStep cb env g pd a).1) (acc ++ (glfmSensorStep cb env g pd a).2)]
    exact hf pd a

@[simp] lemma setAllSensors_anim (cb : CB) (env : SensorEnv) (g : Bool) (pd : PD) :
    (glfmSetAllRequestedSensorsEnabled cb env g pd).1.animating = pd.animating :=
  sensorsFold_keeps cb env g (fun p => p.animating)
    (fun p i => sensorStep_anim cb env g p i) (List.finRange 4) pd []

@[simp] lemma setAllSensors_inited (cb : CB) (env : SensorEnv) (g : Bool) (pd : PD) :
    (glfmSetAllRequestedSensorsEnabled cb env g pd).1.hasInited = pd.hasInited :=
  sensorsFold_keeps cb env g (fun p => p.hasInited)
    (fun p i => sensorStep_inited cb env g p i) (List.finRange 4) pd []

lemma setAnimating_anim (cb : CB) (senv : SensorEnv) (pd : PD) (b : Bool) :
    (glfmSetAnimating cb senv pd b).1.animating = b := by
  by_cases h : pd.animating = b
  · rw [setAnimating_noop cb senv pd b h]
    exact h
  · unfold glfmSetAnimating
    rw [if_pos h]
    simp only [setAllSensors_anim]
    split_ifs <;> rfl

lemma setAnimating_inited_mono (cb : CB) (senv : SensorEnv) (pd : PD) (b : Bool)
    (h : pd.hasInited = true) :
    (glfmSetAnimating cb senv pd b).1.hasInited = true := by
  by_cases h0 : pd.animating = b
  · rw [setAnimating_noop cb senv pd b h0]
    exact h
  · unfold glfmSetAnimating
    rw [if_pos h0]
    simp only [setAllSensors_inited]
    split_ifs <;> simp_all

lemma setAnimating_inited_of_change (cb : CB) (senv : SensorEnv) (pd : PD)
    (h : pd.animating ≠ true) :
    (glfmSetAnimating cb senv pd true).1.hasInited = true := by
  unfold glfmSetAnimating
  rw [if_pos h]
  simp only [setAllSensors_inited]
  split_ifs <;> simp_all

/-! ## C3: when is the animating flag set -/

/-- The effect of one observable step on the animating flag, read off the
handlers: gained-focus sets it, lost-focus / window-terminated / the
destroy-requested path clear it, every other step leaves it unchanged. -/
def animUpd (a : Bool) : Op → Bool
  | Op.app (Cmd.gainedFocus _) => true
  | Op.app (Cmd.termWindow _) => false
  | Op.app (Cmd.lostFocus _ _) => false
  | Op.loopDestroy _ => false
  | _ => a

lemma stepOp_anim (cb : CB) (minKb : Int) (pd : PD) (op : Op) :
    (glfmStepOp cb minKb pd op).1.animating = animUpd pd.animating op := by
  cases op with
  | app c =>
    cases c with
    | initWindow ie ce de =>
      simp only [glfmStepOp, glfmOnAppCmd, animUpd, drawFrame_anim]
      split_ifs <;> simp
    | termWindow se => simp [glfmStepOp, glfmOnAppCmd, animUpd, setAnimating_anim]
    | gainedFocus se => simp [glfmStepOp, glfmOnAppCmd, animUpd, setAnimating_anim]
    | lostFocus de se =>
      simp only [glfmStepOp, glfmOnAppCmd, animUpd]
      split_ifs with h
      · simp [setAnimating_anim]
      · simpa using h
    | contentRectChanged r de o kb => simp [glfmStepOp, glfmOnAppCmd, animUpd]
    | _ => simp [glfmStepOp, glfmOnAppCmd, animUpd]
  | loopFrame de =>
    simp only [glfmStepOp, animUpd]
    split_ifs with h
    · simp
    · rfl
  | appSwap ok ce =>
    simp only [glfmStepOp, animUpd]
    split_ifs <;> simp
  | loopDestroy se =>
    simp only [glfmStepOp, animUpd]
    split_ifs <;> simp [setAnimating_anim]

lemma run_anim (cb : CB) (minKb : Int) :
    ∀ (ops : List Op) (pd : PD),
      (glfmRun cb minKb pd ops).1.animating = ops.foldl animUpd pd.animating := by
  intro ops
  induction ops with
  | nil => intro pd; rfl
  | cons op t ih =>
    intro pd
    simp only [glfmRun, List.foldl_cons]
    rw [ih, stepOp_anim]

/-- A sensor environment in which no device sensor is available; used by
concrete runs. -/
def senvNone : SensorEnv :=
  ⟨fun _ => false, false, fun _ => false, fun _ => false⟩

/-- Counterexample to C3: processing a single gained-focus command from the
initial state sets animating even though no window-init command was ever
processed (the EGL display and context were never initialized).  The C
handler for APP_CMD_GAINED_FOCUS calls `_glfmSetAnimating(platformData, true)`
without any window-readiness guard. -/
theorem c3_counterexample :
    (glfmRun cbAll 100 (initPD 0) [Op.app (Cmd.gainedFocus senvNone)]).1.animating = true
    ∧ (glfmRun cbAll 100 (initPD 0) [Op.app (Cmd.gainedFocus senvNone)]).1.eglDisplay = false
    ∧ (glfmRun cbAll 100 (initPD 0) [Op.app (Cmd.gainedFocus senvNone)]).1.eglContext = false := by
  refine ⟨?_, ?_, ?_⟩ <;> rfl

/-- C3 (amended): for every sequence of observable steps from the initial
state, the animating flag is exactly the fold of the per-step focus effect:
true iff some gained-focus was processed and no lost-focus, window-terminated
or destroy-requested step followed the last gained-focus.  Focus being held is
thus necessary and sufficient; window-init is not required first. -/
theorem c3_animating_iff_focus_held (cb : CB) (minKb orient0 : Int) (ops : List Op) :
    (glfmRun cb minKb (initPD orient0) ops).1.animating = ops.foldl animUpd false :=
  run_anim cb minKb ops (initPD orient0)

/-! ## C8: the first focus gain is suppressed -/

/-- Recognizer for focus-callback invocations. -/
def isFocusEv : Ev → Bool
  | Ev.focus _ => true
  | _ => false

lemma sensorStep_events (cb : CB) (env : SensorEnv) (g : Bool) (pd : PD) (i : Fin 4) :
    (glfmSensorStep cb env g pd i).2 = []
    ∨ (glfmSensorStep cb env g pd i).2 = [Ev.sensorEnable i]
    ∨ (glfmSensorStep cb env g pd i).2 = [Ev.sensorDisable i] := by
  rcases hA : pd.deviceSensorEnabled i <;> rcases hB : (g && cb.sensorF i) <;>
    rcases hC : env.avail i <;> rcases hD : pd.hasSensorQueue <;>
    rcases hE : env.createQueueOK <;> rcases hF : env.enableOK i <;>
    rcases hG : env.disableOK i <;>
    simp [glfmSensorStep, hA, hB, hC, hD, hE, hF, hG]

lemma sensorStep_no_focus (cb : CB) (env : SensorEnv) (g : Bool) (pd : PD) (i : Fin 4) :
    ∀ e ∈ (glfmSensorStep cb env g pd i).2, isFocusEv e = false := by
  intro e he
  rcases sensorStep_events cb env g pd i with h | h | h <;>
    rw [h] at he <;> simp_all [isFocusEv]

lemma sensorsFold_no_focus (cb : CB) (env : SensorEnv) (g : Bool) :
    ∀ (l : List (Fin 4)) (pd : PD) (acc : List Ev),
      (∀ e ∈ acc, isFocusEv e = false) →
      ∀ e ∈ (l.foldl (fun ac i =>
          ((glfmSensorStep cb env g ac.1 i).1, ac.2 ++ (glfmSensorStep cb env g ac.1 i).2))
          (pd, acc)).2, isFocusEv e = false := by
  intro l
  induction l with
  | nil => intro pd acc hacc e he; exact hacc e he
  | cons a t ih =>
    intro pd acc hacc e he
    simp only [List.foldl_cons] at he
    exact ih ((glfmSensorStep cb env g pd a).1)
      (acc ++ (glfmSensorStep cb env g pd a).2)
      (fun e' he' => (List.mem_append.mp he').elim (hacc e')
        (sensorStep_no_focus cb env g pd a e')) e he

lemma setAllSensors_no_focus (cb : CB) (env : SensorEnv) (g : Bool) (pd : PD) :
    (glfmSetAllRequestedSensorsEnabled cb env g pd).2.filter isFocusEv = [] := by
  rw [List.filter_eq_nil_iff]
  intro e he
  simp only [Bool.not_eq_true]
  exact sensorsFold_no_focus cb env g (List.finRange 4) pd [] (by simp) e he

/-- C8: on a transition of the animating flag, the focus callback is
suppressed exactly when this is the first-ever focus gain (`hasInited` still
false and the new value true, after which `hasInited` is set); every other
transition fires the focus callback exactly once with the new value.  Along
every run from the initial state, `animating` implies `hasInited`, and a run
that still has `hasInited = false` never had `animating` set at any prefix —
so `hasInited = false ∧ b = true` does characterize the first-ever gain. -/
theorem c8_first_focus_gain_suppressed (cb : CB) (minKb orient0 : Int) :
    (∀ (senv : SensorEnv) (pd : PD) (b : Bool),
        pd.animating ≠ b → pd.hasInited = false → b = true →
        ((glfmSetAnimating cb senv pd b).2.filter isFocusEv = []
         ∧ (glfmSetAnimating cb senv pd b).1.hasInited = true))
    ∧ (∀ (senv : SensorEnv) (pd : PD) (b : Bool),
        cb.focusF = true → pd.animating ≠ b →
        ¬(pd.hasInited = false ∧ b = true) →
        (glfmSetAnimating cb senv pd b).2.filter isFocusEv = [Ev.focus b])
    ∧ (∀ ops : List Op,
        (glfmRun cb minKb (initPD orient0) ops).1.animating = true →
        (glfmRun cb minKb (initPD orient0) ops).1.hasInited = true)
    ∧ (∀ ops more : List Op,
        (glfmRun cb minKb (initPD orient0) (ops ++ more)).1.hasInited = false →
        (glfmRun cb minKb (initPD orient0) ops).1.animating = false) := by
  have inv : ∀ (l : List Op) (pd : PD),
      (pd.animating = true → pd.hasInited = true) →
      ((glfmRun cb minKb pd l).1.animating = true →
        (glfmRun cb minKb pd l).1.hasInited = true) := by
    intro l
    induction l with
    | nil => intro pd h; exact h
    | cons op t ih =>
      intro pd h
      simp only [glfmRun]
      refine ih _ ?_
      intro hstep
      rw [stepOp_anim] at hstep
      cases op with
      | app c =>
        cases c with
        | initWindow ie ce de =>
          simp only [animUpd] at hstep
          simp only [glfmStepOp, glfmOnAppCmd, drawFrame_inited]
          split_ifs <;> simp [h hstep]
        | termWindow se => simp [animUpd] at hstep
        | gainedFocus se =>
          simp only [glfmStepOp, glfmOnAppCmd]
          by_cases h0 : pd.animating = true
          · rw [setAnimating_noop cb se pd true h0]
            exact h h0
          · exact setAnimating_inited_of_change cb se pd h0
        | lostFocus de se => simp [animUpd] at hstep
        | contentRectChanged r de o kb =>
          simp only [animUpd] at hstep
          simp [glfmStepOp, glfmOnAppCmd, h hstep]
        | _ =>
          simp only [animUpd] at hstep
          simp [glfmStepOp, glfmOnAppCmd, h hstep]
      | loopFrame de =>
        simp only [animUpd] at hstep
        simp only [glfmStepOp]
        split_ifs
        simp [h hstep]
      | appSwap ok ce =>
        simp only [animUpd] at hstep
        simp only [glfmStepOp]
        split_ifs <;> simp [h hstep]
      | loopDestroy se => simp [animUpd] at hstep
  have happ : ∀ (l1 l2 : List Op) (pd : PD),
      (glfmRun cb minKb pd (l1 ++ l2)).1
        = (glfmRun cb minKb (glfmRun cb minKb pd l1).1 l2).1 := by
    intro l1
    induction l1 with
    | nil => intro l2 pd; rfl
    | cons op t ih => intro l2 pd; simp only [List.cons_append, glfmRun]; exact ih l2 _
  have hmono : ∀ (l : List Op) (pd : PD), pd.hasInited = true →
      (glfmRun cb minKb pd l).1.hasInited = true := by
    intro l
    induction l with
    | nil => intro pd h; exact h
    | cons op t ih =>
      intro pd h
      simp only [glfmRun]
      refine ih _ ?_
      cases op with
      | app c =>
        cases c with
        | initWindow ie ce de =>
          simp only [glfmStepOp, glfmOnAppCmd, drawFrame_inited]
          split_ifs <;> simp [h]
        | termWindow se => exact setAnimating_inited_mono cb se _ false (by simp [h])
        | gainedFocus se => exact setAnimating_inited_mono cb se pd true h
        | lostFocus de se =>
          simp only [glfmStepOp, glfmOnAppCmd]
          split_ifs with ha
          · exact setAnimating_inited_mono cb se _ false (by simp [h])
          · exact h
        | contentRectChanged r de o kb => simp [glfmStepOp, glfmOnAppCmd, h]
        | _ => simp [glfmStepOp, glfmOnAppCmd, h]
      | loopFrame de =>
        simp only [glfmStepOp]
        split_ifs <;> simp [h]
      | appSwap ok ce =>
        simp only [glfmStepOp]
        split_ifs <;> simp [h]
      | loopDestroy se =>
        simp only [glfmStepOp]
        refine setAnimating_inited_mono cb se _ false ?_
        split_ifs <;> simp [h, setAllSensors_inited]
  have hinit0 : (initPD orient0).animating = true → (initPD orient0).hasInited = true := by
    intro h
    simp [initPD] at h
  refine ⟨?_, ?_, fun ops => inv ops (initPD orient0) hinit0, ?_⟩
  · intro senv pd b hne hini hb
    subst hb
    unfold glfmSetAnimating
    rw [if_pos hne]
    constructor
    · simp only [List.filter_append, setAllSensors_no_focus, List.append_nil]
      split_ifs with hs hs2 <;> simp_all
    · simp only [setAllSensors_inited]
      split_ifs with hs hs2 <;> simp_all
  · intro senv pd b hcb hne hnot
    unfold glfmSetAnimating
    rw [if_pos hne]
    simp only [List.filter_append, setAllSensors_no_focus, List.append_nil, hcb, if_true]
    split_ifs with hs
    · simp only [Bool.and_eq_true] at hs
      refine absurd ⟨?_, hs.2⟩ hnot
      simpa using hs.1
    · rfl
  · intro ops more hini
    by_contra habs
    rw [Bool.not_eq_false] at habs
    have h1 := inv ops (initPD orient0) hinit0 habs
    have h2 := hmono more _ h1
    rw [happ ops more (initPD orient0)] at hini
    rw [hini] at h2
    cases h2

/-- Witness for C8 at the initial state: the very first gain fires no focus
callback and records the implicit activation. -/
theorem c8_first_focus_gain_suppressed_witness :
    (glfmSetAnimating cbAll senvNone (initPD 0) true).2.filter isFocusEv = []
    ∧ (glfmSetAnimating cbAll senvNone (initPD 0) true).1.hasInited = true :=
  (c8_first_focus_gain_suppressed cbAll 100 0).1 senvNone (initPD 0) true
    (by decide) rfl rfl

/-! ## C5: resize debounce -/

/-- Recognizer for resize-callback invocations. -/
def isResizeEv : Ev → Bool
  | Ev.resize _ _ => true
  | _ => false

/-- Iterate the bottom-of-loop draw (`_glfmDrawFrame` with a live surface
size) a number of frames, concatenating the callback traces. -/
def drawFrames (cb : CB) (env : DrawEnv) : Nat → PD → PD × List Ev
  | 0, pd => (pd, [])
  | Nat.succ k, pd =>
      let r := glfmDrawFrame cb env pd
      let rr := drawFrames cb env k r.1
      (rr.1, r.2 ++ rr.2)

lemma drawFrames_add (cb : CB) (env : DrawEnv) (m n : Nat) :
    ∀ pd : PD,
      drawFrames cb env (m + n) pd
        = ((drawFrames cb env n (drawFrames cb env m pd).1).1,
           (drawFrames cb env m pd).2 ++ (drawFrames cb env n (drawFrames cb env m pd).1).2) := by
  induction m with
  | zero => intro pd; simp [drawFrames]
  | succ j ih =>
    intro pd
    have : j + 1 + n = (j + n) + 1 := by omega
    rw [this]
    simp only [drawFrames]
    rw [ih (glfmDrawFrame cb env pd).1]
    simp [drawFrames, List.append_assoc]

lemma reportOrient_no_resize (cb : CB) (o : Int) (pd : PD) :
    (glfmReportOrientationChangeIfNeeded cb o pd).2.filter isResizeEv = [] := by
  unfold glfmReportOrientationChangeIfNeeded
  split_ifs <;> simp [isResizeEv]

@[simp] lemma reportOrient_width (cb : CB) (o : Int) (pd : PD) :
    (glfmReportOrientationChangeIfNeeded cb o pd).1.width = pd.width := by
  unfold glfmReportOrientationChangeIfNeeded
  split_ifs <;> rfl

@[simp] lemma reportOrient_height (cb : CB) (o : Int) (pd : PD) :
    (glfmReportOrientationChangeIfNeeded cb o pd).1.height = pd.height := by
  unfold glfmReportOrientationChangeIfNeeded
  split_ifs <;> rfl

@[simp] lemma reportOrient_wait (cb : CB) (o : Int) (pd : PD) :
    (glfmReportOrientationChangeIfNeeded cb o pd).1.resizeEventWaitFrames
      = pd.resizeEventWaitFrames := by
  unfold glfmReportOrientationChangeIfNeeded
  split_ifs <;> rfl

@[simp] lemma reportOrient_current (cb : CB) (o : Int) (pd : PD) :
    (glfmReportOrientationChangeIfNeeded cb o pd).1.eglContextCurrent
      = pd.eglContextCurrent := by
  unfold glfmReportOrientationChangeIfNeeded
  split_ifs <;> rfl

lemma updateKb_no_resize (cb : CB) (minKb : Int) (vis : Option ARect) (pd : PD) :
    (glfmUpdateKeyboardVisibility cb minKb vis pd).2.filter isResizeEv = [] := by
  simp only [glfmUpdateKeyboardVisibility]
  split_ifs <;> simp [isResizeEv]

@[simp] lemma updateKb_width (cb : CB) (minKb : Int) (vis : Option ARect) (pd : PD) :
    (glfmUpdateKeyboardVisibility cb minKb vis pd).1.width = pd.width := by
  simp only [glfmUpdateKeyboardVisibility]
  split_ifs <;> rfl

@[simp] lemma updateKb_height (cb : CB) (minKb : Int) (vis : Option ARect) (pd : PD) :
    (glfmUpdateKeyboardVisibility cb minKb vis pd).1.height = pd.height := by
  simp only [glfmUpdateKeyboardVisibility]
  split_ifs <;> rfl

/-- A non-forced draw that sees a size mismatch while the debounce counter is
still positive: decrement the counter, change nothing else relevant, fire no
resize callback. -/
lemma drawFrame_waiting (cb : CB) (env : DrawEnv) (pd : PD)
    (hcur : pd.eglContextCurrent = true)
    (hmis : env.liveW ≠ pd.width ∨ env.liveH ≠ pd.height)
    (hwf : 0 < pd.resizeEventWaitFrames) :
    (glfmDrawFrame cb env pd).1.width = pd.width
    ∧ (glfmDrawFrame cb env pd).1.height = pd.height
    ∧ (glfmDrawFrame cb env pd).1.resizeEventWaitFrames = pd.resizeEventWaitFrames - 1
    ∧ (glfmDrawFrame cb env pd).1.eglContextCurrent = pd.eglContextCurrent
    ∧ (glfmDrawFrame cb env pd).2.filter isResizeEv = [] := by
  have hupd : glfmUpdateSurfaceSizeIfNeeded cb env false pd
      = ({ pd with resizeEventWaitFrames := pd.resizeEventWaitFrames - 1 }, []) := by
    unfold glfmUpdateSurfaceSizeIfNeeded
    rw [if_pos hmis, if_neg (by simp; omega)]
  unfold glfmDrawFrame
  rw [if_neg (by simp [hcur])]
  simp only [hupd]
  split_ifs <;> simp [isResizeEv, hcur]

/-- A draw that sees a mismatch with the counter exhausted (or a forced
update): adopt the live size, reset the counter to 5, fire the resize
callback. -/
lemma reportOrient_refresh_true (cb : CB) (o : Int) (pd : PD)
    (h : pd.refreshRequested = true) :
    (glfmReportOrientationChangeIfNeeded cb o pd).1.refreshRequested = true := by
  unfold glfmReportOrientationChangeIfNeeded
  split_ifs <;> simp [h]

lemma updateSize_fire (cb : CB) (env : DrawEnv) (pd : PD)
    (hmis : env.liveW ≠ pd.width ∨ env.liveH ≠ pd.height)
    (hwf : pd.resizeEventWaitFrames ≤ 0) :
    (glfmUpdateSurfaceSizeIfNeeded cb env false pd).1.width = env.liveW
    ∧ (glfmUpdateSurfaceSizeIfNeeded cb env false pd).1.height = env.liveH
    ∧ (glfmUpdateSurfaceSizeIfNeeded cb env false pd).1.resizeEventWaitFrames
        = RESIZE_EVENT_MAX_WAIT_FRAMES
    ∧ (glfmUpdateSurfaceSizeIfNeeded cb env false pd).2.filter isResizeEv
        = (if cb.resizeF then [Ev.resize env.liveW env.liveH] else [])
    ∧ (glfmUpdateSurfaceSizeIfNeeded cb env false pd).1.refreshRequested = true := by
  unfold glfmUpdateSurfaceSizeIfNeeded
  rw [if_pos hmis, if_pos (by simp; omega)]
  refine ⟨by simp, by simp, by simp, ?_, reportOrient_refresh_true cb env.orient _ rfl⟩
  simp only [List.filter_append, reportOrient_no_resize, List.nil_append]
  split_ifs <;> simp [isResizeEv]

lemma drawFrame_fire (cb : CB) (env : DrawEnv) (pd : PD)
    (hcur : pd.eglContextCurrent = true)
    (hmis : env.liveW ≠ pd.width ∨ env.liveH ≠ pd.height)
    (hwf : pd.resizeEventWaitFrames ≤ 0) :
    (glfmDrawFrame cb env pd).1.width = env.liveW
    ∧ (glfmDrawFrame cb env pd).1.height = env.liveH
    ∧ (glfmDrawFrame cb env pd).1.resizeEventWaitFrames = RESIZE_EVENT_MAX_WAIT_FRAMES
    ∧ (glfmDrawFrame cb env pd).2.filter isResizeEv
        = (if cb.resizeF then [Ev.resize env.liveW env.liveH] else []) := by
  obtain ⟨u1, u2, u3, u4, u5⟩ := updateSize_fire cb env pd hmis hwf
  simp only [glfmDrawFrame]
  rw [if_neg (by simp [hcur]), if_pos u5]
  refine ⟨by simpa using u1, by simpa using u2, by simpa using u3, ?_⟩
  simp only [List.filter_append, u4]
  split_ifs <;> simp [isResizeEv]

/-- During up to `waitFrames` mismatch frames nothing fires and the counter
counts down. -/
lemma drawFrames_waiting (cb : CB) (liveW liveH o : Int) :
    ∀ (k : Nat) (pd : PD),
      pd.eglContextCurrent = true →
      (liveW ≠ pd.width ∨ liveH ≠ pd.height) →
      (k : Int) ≤ pd.resizeEventWaitFrames →
      ((drawFrames cb ⟨liveW, liveH, o⟩ k pd).2.filter isResizeEv = []
       ∧ (drawFrames cb ⟨liveW, liveH, o⟩ k pd).1.width = pd.width
       ∧ (drawFrames cb ⟨liveW, liveH, o⟩ k pd).1.height = pd.height
       ∧ (drawFrames cb ⟨liveW, liveH, o⟩ k pd).1.resizeEventWaitFrames
           = pd.resizeEventWaitFrames - k
       ∧ (drawFrames cb ⟨liveW, liveH, o⟩ k pd).1.eglContextCurrent = true) := by
  intro k
  induction k with
  | zero =>
    intro pd hcur hmis hk
    refine ⟨rfl, rfl, rfl, by simp [drawFrames], hcur⟩
  | succ j ih =>
    intro pd hcur hmis hk
    have hwf : 0 < pd.resizeEventWaitFrames := by
      have : ((j : Int) + 1) ≤ pd.resizeEventWaitFrames := by push_cast at hk ⊢; omega
      omega
    obtain ⟨hw, hh, hwait, hcur', hfil⟩ := drawFrame_waiting cb ⟨liveW, liveH, o⟩ pd hcur hmis hwf
    have hmis' : liveW ≠ (glfmDrawFrame cb ⟨liveW, liveH, o⟩ pd).1.width
        ∨ liveH ≠ (glfmDrawFrame cb ⟨liveW, liveH, o⟩ pd).1.height := by
      rw [hw, hh]; exact hmis
    have hk' : (j : Int) ≤ (glfmDrawFrame cb ⟨liveW, liveH, o⟩ pd).1.resizeEventWaitFrames := by
      rw [hwait]; push_cast at hk ⊢; omega
    obtain ⟨ih1, ih2, ih3, ih4, ih5⟩ :=
      ih ((glfmDrawFrame cb ⟨liveW, liveH, o⟩ pd).1) (hcur'.trans hcur) hmis' hk'
    simp only [drawFrames]
    refine ⟨?_, ?_, ?_, ?_, ih5⟩
    · rw [List.filter_append, hfil, ih1, List.append_nil]
    · rw [ih2, hw]
    · rw [ih3, hh]
    · rw [ih4, hwait]
      push_cast
      ring
/-- C5: after the draw loop first observes a live size differing from the
stored size (the debounce counter is then at its reset value 5), the resize
callback does not fire for the next 5 frames; on the 6th frame it fires once
and the stored width/height are updated to the live size and the counter is
reset; a content-rect-changed command instead forces the update immediately
(its handler calls the update with `force = true`). -/
theorem c5_resize_debounce (cb : CB) (minKb : Int) (pd : PD) (liveW liveH : Int) (k : Nat)
    (hcur : pd.eglContextCurrent = true)
    (hwf : pd.resizeEventWaitFrames = RESIZE_EVENT_MAX_WAIT_FRAMES)
    (hmis : liveW ≠ pd.width ∨ liveH ≠ pd.height) :
    (k ≤ 5 →
      ((drawFrames cb ⟨liveW, liveH, pd.orientation⟩ k pd).2.filter isResizeEv = []
       ∧ (drawFrames cb ⟨liveW, liveH, pd.orientation⟩ k pd).1.width = pd.width
       ∧ (drawFrames cb ⟨liveW, liveH, pd.orientation⟩ k pd).1.height = pd.height
       ∧ (drawFrames cb ⟨liveW, liveH, pd.orientation⟩ k pd).1.resizeEventWaitFrames
           = 5 - (k : Int)))
    ∧ (cb.resizeF = true →
        ((drawFrames cb ⟨liveW, liveH, pd.orientation⟩ 6 pd).2.filter isResizeEv
            = [Ev.resize liveW liveH]
         ∧ (drawFrames cb ⟨liveW, liveH, pd.orientation⟩ 6 pd).1.width = liveW
         ∧ (drawFrames cb ⟨liveW, liveH, pd.orientation⟩ 6 pd).1.height = liveH
         ∧ (drawFrames cb ⟨liveW, liveH, pd.orientation⟩ 6 pd).1.resizeEventWaitFrames
             = RESIZE_EVENT_MAX_WAIT_FRAMES))
    ∧ (∀ (r : ARect) (de : DrawEnv) (o : Int) (kb : Option ARect) (pd' : PD),
        (de.liveW ≠ pd'.width ∨ de.liveH ≠ pd'.height) → cb.resizeF = true →
        ((glfmOnAppCmd cb minKb pd' (Cmd.contentRectChanged r de o kb)).2.filter isResizeEv
            = [Ev.resize de.liveW de.liveH]
         ∧ (glfmOnAppCmd cb minKb pd' (Cmd.contentRectChanged r de o kb)).1.width = de.liveW
         ∧ (glfmOnAppCmd cb minKb pd' (Cmd.contentRectChanged r de o kb)).1.height
             = de.liveH)) := by
  have hwait5 := drawFrames_waiting cb liveW liveH pd.orientation
  refine ⟨?_, ?_, ?_⟩
  · intro hk
    have := hwait5 k pd hcur hmis (by rw [hwf]; unfold RESIZE_EVENT_MAX_WAIT_FRAMES; omega)
    refine ⟨this.1, this.2.1, this.2.2.1, ?_⟩
    rw [this.2.2.2.1, hwf]
    rfl
  · intro hres
    obtain ⟨w5a, w5b, w5c, w5d, w5e⟩ :=
      hwait5 5 pd hcur hmis (by rw [hwf]; unfold RESIZE_EVENT_MAX_WAIT_FRAMES; omega)
    have h6 : (6 : Nat) = 5 + 1 := rfl
    rw [h6, drawFrames_add]
    have hmis5 : liveW ≠ (drawFrames cb ⟨liveW, liveH, pd.orientation⟩ 5 pd).1.width
        ∨ liveH ≠ (drawFrames cb ⟨liveW, liveH, pd.orientation⟩ 5 pd).1.height := by
      rw [w5b, w5c]; exact hmis
    have hwf5 : (drawFrames cb ⟨liveW, liveH, pd.orientation⟩ 5 pd).1.resizeEventWaitFrames ≤ 0 := by
      rw [w5d, hwf]
      unfold RESIZE_EVENT_MAX_WAIT_FRAMES
      push_cast
      try omega
    obtain ⟨f1, f2, f3, f4⟩ := drawFrame_fire cb ⟨liveW, liveH, pd.orientation⟩
      ((drawFrames cb ⟨liveW, liveH, pd.orientation⟩ 5 pd).1) w5e hmis5 hwf5
    have hone : ∀ q : PD, drawFrames cb ⟨liveW, liveH, pd.orientation⟩ 1 q
        = ((glfmDrawFrame cb ⟨liveW, liveH, pd.orientation⟩ q).1,
           (glfmDrawFrame cb ⟨liveW, liveH, pd.orientation⟩ q).2) := by
      intro q
      simp [drawFrames]
    rw [hone]
    refine ⟨?_, f1, f2, f3⟩
    rw [List.filter_append, w5a, List.nil_append, f4, if_pos hres]
  · intro r de o kb pd' hmis' hres
    have hupd : (glfmUpdateSurfaceSizeIfNeeded cb de true
          { pd' with refreshRequested := true, contentRect := r }).2.filter isResizeEv
            = [Ev.resize de.liveW de.liveH]
        ∧ (glfmUpdateSurfaceSizeIfNeeded cb de true
            { pd' with refreshRequested := true, contentRect := r }).1.width = de.liveW
        ∧ (glfmUpdateSurfaceSizeIfNeeded cb de true
            { pd' with refreshRequested := true, contentRect := r }).1.height = de.liveH := by
      unfold glfmUpdateSurfaceSizeIfNeeded
      rw [if_pos (by simpa using hmis'), if_pos (by simp)]
      refine ⟨?_, by simp, by simp⟩
      simp only [List.filter_append, reportOrient_no_resize, List.nil_append]
      rw [if_pos hres]
      simp [isResizeEv]
    refine ⟨?_, ?_, ?_⟩
    · simp only [glfmOnAppCmd, List.filter_append, reportOrient_no_resize,
        updateKb_no_resize, List.append_nil, List.nil_append]
      exact hupd.1
    · simp only [glfmOnAppCmd, updateKb_width, reportOrient_width]
      exact hupd.2.1
    · simp only [glfmOnAppCmd, updateKb_height, reportOrient_height]
      exact hupd.2.2

/-- A state with a current context (as after a successful window-init), used
by concrete instantiations. -/
def pdCurrent : PD := { initPD 0 with eglContextCurrent := true }

/-- Witness for C5: from a fresh current-context state with stored size 0x0
and live size 7x9, three frames fire nothing, the sixth fires exactly one
resize. -/
theorem c5_resize_debounce_witness :
    (drawFrames cbAll ⟨7, 9, pdCurrent.orientation⟩ 3 pdCurrent).2.filter isResizeEv = []
    ∧ (drawFrames cbAll ⟨7, 9, pdCurrent.orientation⟩ 6 pdCurrent).2.filter isResizeEv
        = [Ev.resize 7 9] :=
  ⟨((c5_resize_debounce cbAll 100 pdCurrent 7 9 3 rfl rfl (by decide)).1 (by decide)).1,
   ((c5_resize_debounce cbAll 100 pdCurrent 7 9 3 rfl rfl (by decide)).2.1 rfl).1⟩

/-! ## C1: surface-created / surface-destroyed / render ordering

The EGL handle booleans are written only by the EGL functions; everything
else preserves them. -/

@[simp] lemma surfInit_ctx (ok : Bool) (pd : PD) :
    (glfmEGLSurfaceInit ok pd).eglContext = pd.eglContext := by
  simp only [glfmEGLSurfaceInit]
  split_ifs <;> rfl

@[simp] lemma surfInit_display (ok : Bool) (pd : PD) :
    (glfmEGLSurfaceInit ok pd).eglDisplay = pd.eglDisplay := by
  simp only [glfmEGLSurfaceInit]
  split_ifs <;> rfl

@[simp] lemma surfInit_current (ok : Bool) (pd : PD) :
    (glfmEGLSurfaceInit ok pd).eglContextCurrent = pd.eglContextCurrent := by
  simp only [glfmEGLSurfaceInit]
  split_ifs <;> rfl

@[simp] lemma surfInit_surface (ok : Bool) (pd : PD) :
    (glfmEGLSurfaceInit ok pd).eglSurface = (pd.eglSurface || ok) := by
  rcases hs : pd.eglSurface <;> rcases ok <;> simp [glfmEGLSurfaceInit, hs]

@[simp] lemma surfDestroy_ctx (pd : PD) :
    (glfmEGLSurfaceDestroy pd).eglContext = pd.eglContext := rfl

@[simp] lemma surfDestroy_display (pd : PD) :
    (glfmEGLSurfaceDestroy pd).eglDisplay = pd.eglDisplay := rfl

@[simp] lemma surfDestroy_current (pd : PD) :
    (glfmEGLSurfaceDestroy pd).eglContextCurrent = false := rfl

@[simp] lemma reportOrient_ctx (cb : CB) (o : Int) (pd : PD) :
    (glfmReportOrientationChangeIfNeeded cb o pd).1.eglContext = pd.eglContext := by
  simp only [glfmReportOrientationChangeIfNeeded]
  split_ifs <;> rfl

@[simp] lemma reportOrient_display (cb : CB) (o : Int) (pd : PD) :
    (glfmReportOrientationChangeIfNeeded cb o pd).1.eglDisplay = pd.eglDisplay := by
  simp only [glfmReportOrientationChangeIfNeeded]
  split_ifs <;> rfl

@[simp] lemma updateSize_ctx (cb : CB) (env : DrawEnv) (force : Bool) (pd : PD) :
    (glfmUpdateSurfaceSizeIfNeeded cb env force pd).1.eglContext = pd.eglContext := by
  simp only [glfmUpdateSurfaceSizeIfNeeded]
  split_ifs <;> simp

@[simp] lemma updateSize_display (cb : CB) (env : DrawEnv) (force : Bool) (pd : PD) :
    (glfmUpdateSurfaceSizeIfNeeded cb env force pd).1.eglDisplay = pd.eglDisplay := by
  simp only [glfmUpdateSurfaceSizeIfNeeded]
  split_ifs <;> simp

@[simp] lemma updateSize_current (cb : CB) (env : DrawEnv) (force : Bool) (pd : PD) :
    (glfmUpdateSurfaceSizeIfNeeded cb env force pd).1.eglContextCurrent
      = pd.eglContextCurrent := by
  simp only [glfmUpdateSurfaceSizeIfNeeded]
  split_ifs <;> simp

@[simp] lemma drawFrame_ctx (cb : CB) (env : DrawEnv) (pd : PD) :
    (glfmDrawFrame cb env pd).1.eglContext = pd.eglContext := by
  simp only [glfmDrawFrame]
  split_ifs <;> simp

@[simp] lemma drawFrame_display (cb : CB) (env : DrawEnv) (pd : PD) :
    (glfmDrawFrame cb env pd).1.eglDisplay = pd.eglDisplay := by
  simp only [glfmDrawFrame]
  split_ifs <;> simp

@[simp] lemma drawFrame_current (cb : CB) (env : DrawEnv) (pd : PD) :
    (glfmDrawFrame cb env pd).1.eglContextCurrent = pd.eglContextCurrent := by
  simp only [glfmDrawFrame]
  split_ifs <;> simp

@[simp] lemma updateKb_ctx (cb : CB) (minKb : Int) (vis : Option ARect) (pd : PD) :
    (glfmUpdateKeyboardVisibility cb minKb vis pd).1.eglContext = pd.eglContext := by
  simp only [glfmUpdateKeyboardVisibility]
  split_ifs <;> rfl

@[simp] lemma updateKb_display (cb : CB) (minKb : Int) (vis : Option ARect) (pd : PD) :
    (glfmUpdateKeyboardVisibility cb minKb vis pd).1.eglDisplay = pd.eglDisplay := by
  simp only [glfmUpdateKeyboardVisibility]
  split_ifs <;> rfl

@[simp] lemma updateKb_current (cb : CB) (minKb : Int) (vis : Option ARect) (pd : PD) :
    (glfmUpdateKeyboardVisibility cb minKb vis pd).1.eglContextCurrent
      = pd.eglContextCurrent := by
  simp only [glfmUpdateKeyboardVisibility]
  split_ifs <;> rfl

@[simp] lemma sensorStep_ctx (cb : CB) (env : SensorEnv) (g : Bool) (pd : PD) (i : Fin 4) :
    (glfmSensorStep cb env g pd i).1.eglContext = pd.eglContext := by
  simp only [glfmSensorStep]
  split_ifs <;> rfl

@[simp] lemma sensorStep_display (cb : CB) (env : SensorEnv) (g : Bool) (pd : PD) (i : Fin 4) :
    (glfmSensorStep cb env g pd i).1.eglDisplay = pd.eglDisplay := by
  simp only [glfmSensorStep]
  split_ifs <;> rfl

@[simp] lemma sensorStep_current (cb : CB) (env : SensorEnv) (g : Bool) (pd : PD) (i : Fin 4) :
    (glfmSensorStep cb env g pd i).1.eglContextCurrent = pd.eglContextCurrent := by
  simp only [glfmSensorStep]
  split_ifs <;> rfl

@[simp] lemma setAllSensors_ctx (cb : CB) (env : SensorEnv) (g : Bool) (pd : PD) :
    (glfmSetAllRequestedSensorsEnabled cb env g pd).1.eglContext = pd.eglContext :=
  sensorsFold_keeps cb env g (fun p => p.eglContext)
    (fun p i => sensorStep_ctx cb env g p i) (List.finRange 4) pd []

@[simp] lemma setAllSensors_display (cb : CB) (env : SensorEnv) (g : Bool) (pd : PD) :
    (glfmSetAllRequestedSensorsEnabled cb env g pd).1.eglDisplay = pd.eglDisplay :=
  sensorsFold_keeps cb env g (fun p => p.eglDisplay)
    (fun p i => sensorStep_display cb env g p i) (List.finRange 4) pd []

@[simp] lemma setAllSensors_current (cb : CB) (env : SensorEnv) (g : Bool) (pd : PD) :
    (glfmSetAllRequestedSensorsEnabled cb env g pd).1.eglContextCurrent
      = pd.eglContextCurrent :=
  sensorsFold_keeps cb env g (fun p => p.eglContextCurrent)
    (fun p i => sensorStep_current cb env g p i) (List.finRange 4) pd []

@[simp] lemma setAnimating_ctx (cb : CB) (senv : SensorEnv) (pd : PD) (b : Bool) :
    (glfmSetAnimating cb senv pd b).1.eglContext = pd.eglContext := by
  by_cases h : pd.animating = b
  · rw [setAnimating_noop cb senv pd b h]
  · unfold glfmSetAnimating
    rw [if_pos h]
    simp only [setAllSensors_ctx]
    split_ifs <;> rfl

@[simp] lemma setAnimating_display (cb : CB) (senv : SensorEnv) (pd : PD) (b : Bool) :
    (glfmSetAnimating cb senv pd b).1.eglDisplay = pd.eglDisplay := by
  by_cases h : pd.animating = b
  · rw [setAnimating_noop cb senv pd b h]
  · unfold glfmSetAnimating
    rw [if_pos h]
    simp only [setAllSensors_display]
    split_ifs <;> rfl

@[simp] lemma setAnimating_current (cb : CB) (senv : SensorEnv) (pd : PD) (b : Bool) :
    (glfmSetAnimating cb senv pd b).1.eglContextCurrent = pd.eglContextCurrent := by
  by_cases h : pd.animating = b
  · rw [setAnimating_noop cb senv pd b h]
  · unfold glfmSetAnimating
    rw [if_pos h]
    simp only [setAllSensors_current]
    split_ifs <;> rfl

/-- Recognizer for the events the surface-lifecycle claim talks about:
surface-created, surface-destroyed and render. -/
def isCDREv : Ev → Bool
  | Ev.surfaceCreated _ _ => true
  | Ev.surfaceDestroyed => true
  | Ev.render => true
  | _ => false

/-- Scan a callback trace tracking whether an announced context is live
(`b`): surface-created is legal only when none is, surface-destroyed and
render only when one is; `none` marks a violation, `some b2` the final
state.  Success from `false` states C1's ordering: created/destroyed strictly
alternate starting with created, created fires at most once per context
window, destroyed closes exactly the open window, and every render lies
inside a window (after that context's created, before its destroyed). -/
def cdScan : Bool → List Ev → Option Bool
  | b, [] => some b
  | b, Ev.surfaceCreated _ _ :: t => if b then none else cdScan true t
  | b, Ev.surfaceDestroyed :: t => if b then cdScan false t else none
  | b, Ev.render :: t => if b then cdScan b t else none
  | b, _ :: t => cdScan b t

lemma cdScan_append (l1 : List Ev) :
    ∀ (l2 : List Ev) (b : Bool),
      cdScan b (l1 ++ l2) = (cdScan b l1).bind (fun b2 => cdScan b2 l2) := by
  induction l1 with
  | nil => intro l2 b; rfl
  | cons e t ih =>
    intro l2 b
    cases e <;> simp only [List.cons_append, cdScan] <;>
      (try split_ifs) <;> simp [ih]

lemma cdScan_of_filter :
    ∀ (l : List Ev) (b : Bool), l.filter isCDREv = [] → cdScan b l = some b := by
  intro l
  induction l with
  | nil => intro b _; rfl
  | cons e t ih =>
    intro b h
    rw [List.filter_cons] at h
    by_cases hc : isCDREv e = true
    · rw [if_pos hc] at h
      exact (List.cons_ne_nil _ _ h).elim
    · rw [if_neg hc] at h
      have ht := ih b h
      cases e <;> simp_all [cdScan, isCDREv]

lemma reportOrient_no_cdr (cb : CB) (o : Int) (pd : PD) :
    (glfmReportOrientationChangeIfNeeded cb o pd).2.filter isCDREv = [] := by
  simp only [glfmReportOrientationChangeIfNeeded]
  split_ifs <;> simp [isCDREv]

lemma updateSize_no_cdr (cb : CB) (env : DrawEnv) (force : Bool) (pd : PD) :
    (glfmUpdateSurfaceSizeIfNeeded cb env force pd).2.filter isCDREv = [] := by
  simp only [glfmUpdateSurfaceSizeIfNeeded]
  split_ifs <;> simp [List.filter_append, reportOrient_no_cdr, isCDREv]

lemma updateKb_no_cdr (cb : CB) (minKb : Int) (vis : Option ARect) (pd : PD) :
    (glfmUpdateKeyboardVisibility cb minKb vis pd).2.filter isCDREv = [] := by
  simp only [glfmUpdateKeyboardVisibility]
  split_ifs <;> simp [isCDREv]

lemma sensorStep_no_cdr (cb : CB) (env : SensorEnv) (g : Bool) (pd : PD) (i : Fin 4) :
    ∀ e ∈ (glfmSensorStep cb env g pd i).2, isCDREv e = false := by
  intro e he
  rcases sensorStep_events cb env g pd i with h | h | h <;>
    rw [h] at he <;> simp_all [isCDREv]

lemma sensorsFold_no_cdr (cb : CB) (env : SensorEnv) (g : Bool) :
    ∀ (l : List (Fin 4)) (pd : PD) (acc : List Ev),
      (∀ e ∈ acc, isCDREv e = false) →
      ∀ e ∈ (l.foldl (fun ac i =>
          ((glfmSensorStep cb env g ac.1 i).1, ac.2 ++ (glfmSensorStep cb env g ac.1 i).2))
          (pd, acc)).2, isCDREv e = false := by
  intro l
  induction l with
  | nil => intro pd acc hacc e he; exact hacc e he
  | cons a t ih =>
    intro pd acc hacc e he
    simp only [List.foldl_cons] at he
    exact ih ((glfmSensorStep cb env g pd a).1)
      (acc ++ (glfmSensorStep cb env g pd a).2)
      (fun e' he' => (List.mem_append.mp he').elim (hacc e')
        (sensorStep_no_cdr cb env g pd a e')) e he

lemma setAllSensors_no_cdr (cb : CB) (env : SensorEnv) (g : Bool) (pd : PD) :
    (glfmSetAllRequestedSensorsEnabled cb env g pd).2.filter isCDREv = [] := by
  rw [List.filter_eq_nil_iff]
  intro e he
  simp only [Bool.not_eq_true]
  exact sensorsFold_no_cdr cb env g (List.finRange 4) pd [] (by simp) e he

lemma setAnimating_no_cdr (cb : CB) (senv : SensorEnv) (pd : PD) (b : Bool) :
    (glfmSetAnimating cb senv pd b).2.filter isCDREv = [] := by
  by_cases h : pd.animating = b
  · rw [setAnimating_noop cb senv pd b h]
    rfl
  · unfold glfmSetAnimating
    rw [if_pos h]
    simp only [List.filter_append, setAllSensors_no_cdr, List.append_nil]
    split_ifs <;> simp [isCDREv]

lemma cdScan_true_of_prefix (l1 l2 : List Ev) (b : Bool)
    (h1 : l1.filter isCDREv = []) (h2 : cdScan b l2 = some b) :
    cdScan b (l1 ++ l2) = some b := by
  rw [cdScan_append, cdScan_of_filter _ _ h1]
  exact h2

lemma drawFrame_cd (cb : CB) (env : DrawEnv) (pd : PD)
    (hwf1 : pd.eglContextCurrent = true → pd.eglContext = true) :
    cdScan pd.eglContext (glfmDrawFrame cb env pd).2 = some pd.eglContext := by
  by_cases hc : pd.eglContextCurrent = true
  · have hctx := hwf1 hc
    simp only [glfmDrawFrame]
    rw [if_neg (by simp [hc]), hctx]
    refine cdScan_true_of_prefix _ _ _ ?_ ?_
    · rw [List.filter_append, updateSize_no_cdr]
      simp only [List.nil_append]
      split_ifs <;> simp [isCDREv]
    · split_ifs <;> simp [cdScan]
  · rw [Bool.not_eq_true] at hc
    simp [glfmDrawFrame, hc, cdScan]

/-- The well-formedness invariant tying the EGL handle booleans together: a
current context is a context, and a context lives on a display. -/
def WF (pd : PD) : Prop :=
  (pd.eglContextCurrent = true → pd.eglContext = true)
  ∧ (pd.eglContext = true → pd.eglDisplay = true)

lemma WF_of_fields {pd qd : PD} (hwf : WF pd)
    (h1 : qd.eglContextCurrent = pd.eglContextCurrent)
    (h2 : qd.eglContext = pd.eglContext)
    (h3 : qd.eglDisplay = pd.eglDisplay) : WF qd := by
  constructor
  · intro h
    rw [h2]
    exact hwf.1 (by rw [← h1]; exact h)
  · intro h
    rw [h3]
    exact hwf.2 (by rw [← h2]; exact h)

lemma ctxInit_cd (cb : CB) (env : CtxEnv) (pd : PD)
    (hc : cb.surfaceCreatedF = true) (hcr : env.createOK = true)
    (hmkc : env.makeCurrentOK = true)
    (hd : pd.eglDisplay = true) (hs : pd.eglSurface = true)
    (hwf1 : pd.eglContextCurrent = true → pd.eglContext = true) :
    cdScan pd.eglContext (glfmEGLContextInit cb env pd).2.1
        = some ((glfmEGLContextInit cb env pd).1.eglContext)
    ∧ WF ((glfmEGLContextInit cb env pd).1)
    ∧ (glfmEGLContextInit cb env pd).2.2 = true := by
  rcases hctx : pd.eglContext <;>
    simp_all [glfmEGLContextInit, WF, cdScan]

lemma eglDestroy_cd (cb : CB) (pd : PD)
    (hdcb : cb.surfaceDestroyedF = true) (hwf : WF pd) :
    cdScan pd.eglContext (glfmEGLDestroy cb pd).2
        = some ((glfmEGLDestroy cb pd).1.eglContext)
    ∧ WF ((glfmEGLDestroy cb pd).1) := by
  obtain ⟨hwf1, hwf2⟩ := hwf
  rcases hctx : pd.eglContext <;> rcases hd : pd.eglDisplay <;>
    simp_all [glfmEGLDestroy, WF, cdScan, hdcb]

lemma eglInit_cd (cb : CB) (env : InitEnv) (pd : PD)
    (hc : cb.surfaceCreatedF = true) (hcfg : env.configOK = true)
    (hsf : env.surfOK = true) (hcr : env.ctx.createOK = true)
    (hmkc : env.ctx.makeCurrentOK = true) (hwf : WF pd) :
    cdScan pd.eglContext (glfmEGLInit cb env pd).2.1
        = some ((glfmEGLInit cb env pd).1.eglContext)
    ∧ WF ((glfmEGLInit cb env pd).1)
    ∧ (glfmEGLInit cb env pd).2.2 = true := by
  by_cases hd : pd.eglDisplay = true
  · have h := ctxInit_cd cb env.ctx (glfmEGLSurfaceInit env.surfOK pd) hc hcr hmkc
      (by rw [surfInit_display]; exact hd)
      (by rw [surfInit_surface, hsf]; simp)
      (by intro hcc
          rw [surfInit_ctx]
          rw [surfInit_current] at hcc
          exact hwf.1 hcc)
    rw [surfInit_ctx] at h
    simp only [glfmEGLInit, hd, if_true]
    exact h
  · rw [Bool.not_eq_true] at hd
    have h := ctxInit_cd cb env.ctx
      { glfmEGLSurfaceInit env.surfOK { pd with eglDisplay := true } with
        width := env.surfW, height := env.surfH } hc hcr hmkc
      (by simp) (by simp [hsf])
      (by intro hcc
          simp only [surfInit_current] at hcc
          simp only [surfInit_ctx]
          exact hwf.1 hcc)
    have hctxM : ({ glfmEGLSurfaceInit env.surfOK { pd with eglDisplay := true } with
        width := env.surfW, height := env.surfH } : PD).eglContext = pd.eglContext := by
      simp
    rw [hctxM] at h
    simp only [glfmEGLInit, hd, Bool.false_eq_true, if_false, hcfg, if_true]
    exact h

lemma cdScan_comp {b1 b2 b3 : Bool} {l1 l2 : List Ev}
    (h1 : cdScan b1 l1 = some b2) (h2 : cdScan b2 l2 = some b3) :
    cdScan b1 (l1 ++ l2) = some b3 := by
  rw [cdScan_append, h1]
  exact h2

/-- Guard on one lifecycle command: every external EGL call performed while
handling it succeeds (config negotiation, window-surface creation, context
creation, make-current). -/
def cmdEGLOK : Cmd → Bool
  | Cmd.initWindow ie _ _ =>
      ie.configOK && ie.surfOK && ie.ctx.createOK && ie.ctx.makeCurrentOK
  | _ => true

/-- Guard on one loop step: every external EGL call performed during it
succeeds (for an embedder swap, the `eglSwapBuffers` result itself). -/
def opEGLOK : Op → Bool
  | Op.app c => cmdEGLOK c
  | Op.appSwap ok _ => ok
  | _ => true

lemma stepOp_cd (cb : CB) (minKb : Int) (pd : PD) (op : Op)
    (hc : cb.surfaceCreatedF = true) (hdcb : cb.surfaceDestroyedF = true)
    (hop : opEGLOK op = true) (hwf : WF pd) :
    cdScan pd.eglContext (glfmStepOp cb minKb pd op).2
        = some ((glfmStepOp cb minKb pd op).1.eglContext)
    ∧ WF ((glfmStepOp cb minKb pd op).1) := by
  cases op with
  | app c =>
    simp only [opEGLOK] at hop
    cases c with
    | saveState => exact ⟨rfl, hwf⟩
    | initWindow ie ce de =>
      simp only [cmdEGLOK, Bool.and_eq_true] at hop
      obtain ⟨⟨⟨hcfg, hsf⟩, hcr⟩, hmk⟩ := hop
      have h1 := eglInit_cd cb ie pd hc hcfg hsf hcr hmk hwf
      simp only [glfmStepOp, glfmOnAppCmd]
      rw [if_pos h1.2.2]
      have h3 := drawFrame_cd cb de
        { (glfmEGLInit cb ie pd).1 with refreshRequested := true } h1.2.1.1
      refine ⟨?_, ?_⟩
      · refine cdScan_comp (cdScan_comp h1.1 rfl) ?_
        rw [drawFrame_ctx]
        exact h3
      · exact WF_of_fields h1.2.1 (drawFrame_current _ _ _) (drawFrame_ctx _ _ _)
          (drawFrame_display _ _ _)
    | windowResized => exact ⟨rfl, hwf⟩
    | termWindow se =>
      simp only [glfmStepOp, glfmOnAppCmd]
      refine ⟨?_, ?_⟩
      · rw [cdScan_of_filter _ _ (setAnimating_no_cdr cb se (glfmEGLSurfaceDestroy pd) false)]
        simp only [setAnimating_ctx, surfDestroy_ctx]
      · constructor
        · intro h
          rw [setAnimating_current, surfDestroy_current] at h
          cases h
        · intro h
          rw [setAnimating_ctx, surfDestroy_ctx] at h
          rw [setAnimating_display, surfDestroy_display]
          exact hwf.2 h
    | redrawNeeded => exact ⟨rfl, hwf⟩
    | gainedFocus se =>
      simp only [glfmStepOp, glfmOnAppCmd]
      refine ⟨?_, ?_⟩
      · rw [cdScan_of_filter _ _ (setAnimating_no_cdr cb se pd true)]
        simp only [setAnimating_ctx]
      · exact WF_of_fields hwf (by simp only [setAnimating_current])
          (by simp only [setAnimating_ctx]) (by simp only [setAnimating_display])
    | lostFocus de se =>
      simp only [glfmStepOp, glfmOnAppCmd]
      by_cases hanim : pd.animating = true
      · rw [if_pos hanim]
        have h3 := drawFrame_cd cb de { pd with refreshRequested := true } hwf.1
        refine ⟨?_, ?_⟩
        · refine cdScan_comp h3 ?_
          rw [cdScan_of_filter _ _ (setAnimating_no_cdr cb se
              (glfmDrawFrame cb de { pd with refreshRequested := true }).1 false)]
          simp only [setAnimating_ctx, drawFrame_ctx]
        · exact WF_of_fields hwf
            (by simp only [setAnimating_current, drawFrame_current])
            (by simp only [setAnimating_ctx, drawFrame_ctx])
            (by simp only [setAnimating_display, drawFrame_display])
      · rw [if_neg hanim]
        exact ⟨rfl, hwf⟩
    | contentRectChanged r de orient kb =>
      simp only [glfmStepOp, glfmOnAppCmd]
      refine ⟨?_, ?_⟩
      · refine cdScan_comp (cdScan_comp
          (cdScan_of_filter _ _ (updateSize_no_cdr cb de true _))
          (cdScan_of_filter _ _ (reportOrient_no_cdr cb orient _))) ?_
        rw [cdScan_of_filter _ _ (updateKb_no_cdr cb minKb kb _)]
        simp only [updateKb_ctx, reportOrient_ctx, updateSize_ctx]
      · exact WF_of_fields hwf
          (by simp only [updateKb_current, reportOrient_current, updateSize_current])
          (by simp only [updateKb_ctx, reportOrient_ctx, updateSize_ctx])
          (by simp only [updateKb_display, reportOrient_display, updateSize_display])
    | lowMemory =>
      simp only [glfmStepOp, glfmOnAppCmd]
      refine ⟨?_, hwf⟩
      split_ifs <;> rfl
    | start => exact ⟨rfl, hwf⟩
    | resume => exact ⟨rfl, hwf⟩
    | pause => exact ⟨rfl, hwf⟩
    | stop => exact ⟨rfl, hwf⟩
    | destroyCmd =>
      simp only [glfmStepOp, glfmOnAppCmd]
      exact eglDestroy_cd cb pd hdcb hwf
    | unknown => exact ⟨rfl, hwf⟩
  | loopFrame de =>
    simp only [glfmStepOp]
    by_cases hanim : pd.animating = true
    · rw [if_pos hanim]
      have h3 := drawFrame_cd cb de { pd with swapCalled := false } hwf.1
      refine ⟨?_, ?_⟩
      · rw [drawFrame_ctx]
        exact h3
      · exact WF_of_fields hwf (drawFrame_current _ _ _) (drawFrame_ctx _ _ _)
          (drawFrame_display _ _ _)
    · rw [if_neg hanim]
      exact ⟨rfl, hwf⟩
  | appSwap ok ce =>
    simp only [opEGLOK] at hop
    simp only [glfmStepOp]
    rw [if_pos hop]
    exact ⟨rfl, WF_of_fields hwf rfl rfl rfl⟩
  | loopDestroy se =>
    simp only [glfmStepOp]
    by_cases hq : pd.hasSensorQueue = true
    · rw [if_pos hq]
      have hw1 : WF ({ (glfmSetAllRequestedSensorsEnabled cb se false pd).1 with
          hasSensorQueue := false }) :=
        WF_of_fields hwf (setAllSensors_current _ _ _ _) (setAllSensors_ctx _ _ _ _)
          (setAllSensors_display _ _ _ _)
      have h2 := eglDestroy_cd cb
        { (glfmSetAllRequestedSensorsEnabled cb se false pd).1 with
          hasSensorQueue := false } hdcb hw1
      have hR : ({ (glfmSetAllRequestedSensorsEnabled cb se false pd).1 with
          hasSensorQueue := false } : PD).eglContext = pd.eglContext := by simp
      rw [hR] at h2
      refine ⟨?_, ?_⟩
      · refine cdScan_comp (cdScan_comp
          (cdScan_of_filter _ _ (setAllSensors_no_cdr cb se false pd)) h2.1) ?_
        rw [cdScan_of_filter _ _ (setAnimating_no_cdr cb se _ false)]
        simp only [setAnimating_ctx]
      · exact WF_of_fields h2.2 (by simp only [setAnimating_current])
          (by simp only [setAnimating_ctx]) (by simp only [setAnimating_display])
    · rw [if_neg hq]
      have h2 := eglDestroy_cd cb pd hdcb hwf
      refine ⟨?_, ?_⟩
      · refine cdScan_comp (cdScan_comp ?_ h2.1) ?_
        · rfl
        · rw [cdScan_of_filter _ _ (setAnimating_no_cdr cb se _ false)]
          simp only [setAnimating_ctx]
      · exact WF_of_fields h2.2 (by simp only [setAnimating_current])
          (by simp only [setAnimating_ctx]) (by simp only [setAnimating_display])

lemma run_cd (cb : CB) (minKb : Int) :
    ∀ (ops : List Op) (pd : PD),
      cb.surfaceCreatedF = true → cb.surfaceDestroyedF = true →
      (∀ op ∈ ops, opEGLOK op = true) → WF pd →
      cdScan pd.eglContext (glfmRun cb minKb pd ops).2
          = some ((glfmRun cb minKb pd ops).1.eglContext)
      ∧ WF ((glfmRun cb minKb pd ops).1) := by
  intro ops
  induction ops with
  | nil => intro pd _ _ _ hwf; exact ⟨rfl, hwf⟩
  | cons op t ih =>
    intro pd hc hdcb hall hwf
    have h1 := stepOp_cd cb minKb pd op hc hdcb (hall op (by simp)) hwf
    have h2 := ih (glfmStepOp cb minKb pd op).1 hc hdcb
      (fun o ho => hall o (by simp [ho])) h1.2
    refine ⟨?_, h2.2⟩
    exact cdScan_comp h1.1 h2.1

/-- **C1** (amended).  From the freshly initialized state, provided the
surface-created and surface-destroyed callbacks are registered and every
external EGL call performed along the run succeeds (config negotiation,
window-surface creation, context creation, make-current and buffer swap),
the callback trace of any run of loop steps passes the
created/destroyed/render scan started closed, and the final scan state is
exactly whether a context is still live: created and destroyed strictly
alternate starting with created (so surface-created fires at most once per
context lifetime and surface-destroyed exactly once per teardown, before any
recreation's created), and every render lies between a created and the
matching destroyed.  The unamended claim fails when an `eglMakeCurrent`
fails: see the counterexample. -/
theorem c1_surface_lifecycle (cb : CB) (minKb : Int) (orient0 : Int)
    (ops : List Op)
    (hc : cb.surfaceCreatedF = true) (hdcb : cb.surfaceDestroyedF = true)
    (hall : ∀ op ∈ ops, opEGLOK op = true) :
    cdScan false (glfmRun cb minKb (initPD orient0) ops).2
      = some ((glfmRun cb minKb (initPD orient0) ops).1.eglContext) := by
  have hwf0 : WF (initPD orient0) := by
    constructor <;> intro h <;> simp [initPD] at h
  exact (run_cd cb minKb ops (initPD orient0) hc hdcb hall hwf0).1

theorem c1_surface_lifecycle_witness :
    (cbAll.surfaceCreatedF = true ∧ cbAll.surfaceDestroyedF = true
      ∧ ∀ op ∈ ([Op.app (Cmd.initWindow ⟨true, true, ⟨true, true⟩, 100, 200⟩
                    ⟨ErrClass.other, true, ⟨true, true⟩, ⟨true, true, ⟨true, true⟩, 0, 0⟩⟩
                    ⟨100, 200, 0⟩),
                 Op.app (Cmd.gainedFocus senvNone),
                 Op.loopFrame ⟨100, 200, 0⟩,
                 Op.app Cmd.destroyCmd] : List Op), opEGLOK op = true)
    ∧ cdScan false
        (glfmRun cbAll 0 (initPD 0)
          [Op.app (Cmd.initWindow ⟨true, true, ⟨true, true⟩, 100, 200⟩
              ⟨ErrClass.other, true, ⟨true, true⟩, ⟨true, true, ⟨true, true⟩, 0, 0⟩⟩
              ⟨100, 200, 0⟩),
           Op.app (Cmd.gainedFocus senvNone),
           Op.loopFrame ⟨100, 200, 0⟩,
           Op.app Cmd.destroyCmd]).2
        = some ((glfmRun cbAll 0 (initPD 0)
          [Op.app (Cmd.initWindow ⟨true, true, ⟨true, true⟩, 100, 200⟩
              ⟨ErrClass.other, true, ⟨true, true⟩, ⟨true, true, ⟨true, true⟩, 0, 0⟩⟩
              ⟨100, 200, 0⟩),
           Op.app (Cmd.gainedFocus senvNone),
           Op.loopFrame ⟨100, 200, 0⟩,
           Op.app Cmd.destroyCmd]).1.eglContext) :=
  ⟨⟨rfl, rfl, by decide⟩,
   c1_surface_lifecycle cbAll 0 0
     [Op.app (Cmd.initWindow ⟨true, true, ⟨true, true⟩, 100, 200⟩
         ⟨ErrClass.other, true, ⟨true, true⟩, ⟨true, true, ⟨true, true⟩, 0, 0⟩⟩
         ⟨100, 200, 0⟩),
      Op.app (Cmd.gainedFocus senvNone),
      Op.loopFrame ⟨100, 200, 0⟩,
      Op.app Cmd.destroyCmd] rfl rfl (by decide)⟩

/-- Counterexample to the unamended **C1**: if the first window-init makes a
context but its `eglMakeCurrent` fails (the EGL-bad-surface recovery path
runs instead, which announces nothing), the context survives un-announced;
after a window teardown and re-init the make-current succeeds on the
already-existing context, so `created` is false, no surface-created ever
fires, and the following draw invokes the render callback — the trace is
`[refresh, render]`, which the created/destroyed/render scan rejects: a
render callback fires for a context whose surface-created was never
invoked. -/
theorem c1_counterexample :
    (glfmRun cbAll 0 (initPD 0)
        [Op.app (Cmd.initWindow ⟨true, true, ⟨true, false⟩, 100, 200⟩
            ⟨ErrClass.badSurface, true, ⟨true, true⟩, ⟨true, true, ⟨true, true⟩, 0, 0⟩⟩
            ⟨100, 200, 0⟩),
         Op.app (Cmd.termWindow senvNone),
         Op.app (Cmd.initWindow ⟨true, true, ⟨true, true⟩, 100, 200⟩
            ⟨ErrClass.other, true, ⟨true, true⟩, ⟨true, true, ⟨true, true⟩, 0, 0⟩⟩
            ⟨100, 200, 0⟩)]).2
      = [Ev.refresh, Ev.render]
    ∧ cdScan false [Ev.refresh, Ev.render] = none := by
  constructor <;> rfl

end GLFM
